import Mathlib

/-!
Verification development for the tkinter drawing editor (drawing_editor.py).

The embedding is a shallow state-passing model of the DrawCanvas widget.
Python object identity is modelled by integer ids into explicit heaps:
shape objects live in shapeHeap, Group objects in groupHeap, and tkinter
canvas items (the render surface) in items.  Lists of Python object
references (shape_object, selected_shapes, canvas_group, Group.shapes,
Shape.groups) become lists of ids.  Coordinates are rationals: all the
arithmetic the program performs on them (integer pointer coordinates,
adding 50, halving a sum of two coordinates) is exact in Python floats
at canvas magnitudes, so the rational model computes the same values.

Operations that can raise in CPython (index errors, int() parse errors,
tkinter lookups of dead item handles) return Except PyErr; an error
aborts the whole embedded operation.  Python list.remove is modelled by
List.erase; CPython raises ValueError when the element is absent, and
every use below is either guarded in the source or covered by an
explicit hypothesis.  The tkinter messagebox channel is modelled by an
append-only popups log.  File dialogs, the unsaved-changes confirmation
and the pointer hit-testing (tkinter find_overlapping, whose pixel
bounding boxes are not part of the document model) stay outside the
embedding: operations receive the selection, pointer coordinates and
prompt answers as arguments, exactly the data those collaborators feed
the handlers.
-/

namespace DrawingEditor

/-- Tokens of one line of the text format.  A saved line is the
space-separated rendering of these tokens; numeric tokens stand for the
textual rendering of the number, string tokens for themselves (colors
and styles in this program never contain spaces, so splitting on a
space recovers exactly the token list). -/
inductive Tok where
  | num (q : ℚ)
  | str (s : String)
deriving DecidableEq, Repr

/-- Shape variants: the Python classes Line and Rectangle. -/
inductive ShapeKind where
  | line
  | rect
deriving DecidableEq, Repr

/-- The reference held in DrawCanvas.current_shape.  Normally a Shape
object; update_rectangle_style assigns a raw canvas item id (an int) to
it in its sharp branch, so both are representable. -/
inductive CurrentRef where
  | shapeRef (sid : ℕ)
  | itemRef (iid : ℕ)
deriving DecidableEq, Repr

/-- A Shape object (class Shape with subclasses Line and Rectangle):
stored corner coordinates, color, style (Rectangle only; Line objects
have no style attribute in Python and carry "" here, which no reachable
code path reads for a line), the bound canvas item id (None until
drawn) and the stack of enclosing group ids, outermost first. -/
structure ShapeObj where
  kind : ShapeKind
  x1 : ℚ
  y1 : ℚ
  x2 : ℚ
  y2 : ℚ
  color : String
  style : String
  shape_id : Option ℕ
  groups : List ℕ
deriving DecidableEq, Repr

/-- A tkinter canvas item: its type string ("line", "rectangle",
"polygon", "text"), coordinate list (x and y alternating), fill and
outline colors, tags and outline width. -/
structure RenderItem where
  rtype : String
  coords : List ℚ
  fill : String
  outline : String
  tags : List String
  width : ℚ
deriving DecidableEq, Repr

/-- A Group object: member shapes (shapes), members that had no
enclosing group when added (indv_shapes) and the distinct innermost
groups of the members that had one (sub_grps). -/
structure GroupObj where
  shapes : List ℕ
  indv_shapes : List ℕ
  sub_grps : List ℕ
deriving DecidableEq, Repr

/-- The DrawCanvas state: every mutable attribute set in __init__, plus
the heaps realising Python object identity, allocation counters and the
popup log. -/
structure CanvasState where
  shapes : List (List Tok)
  shape_object : List ℕ
  selected_shapes : List ℕ
  properties_text_ids : List ℕ
  current_tool : Option String
  current_color : String
  current_style : String
  start_x : ℚ
  start_y : ℚ
  current_shape : Option CurrentRef
  file_opened : Bool
  mode : String
  moving : Bool
  canvas_group : List ℕ
  shapeHeap : ℕ → ShapeObj
  groupHeap : ℕ → GroupObj
  items : ℕ → Option RenderItem
  nextShape : ℕ
  nextGroup : ℕ
  nextItem : ℕ
  popups : List String

/-- Pointwise update of a heap function. -/
def updFun {α : Type} (f : ℕ → α) (k : ℕ) (v : α) : ℕ → α :=
  fun n => if n = k then v else f n

@[simp] theorem updFun_self {α : Type} (f : ℕ → α) (k : ℕ) (v : α) :
    updFun f k v k = v := by
  simp [updFun]

theorem updFun_ne {α : Type} (f : ℕ → α) (k : ℕ) (v : α) {n : ℕ} (h : n ≠ k) :
    updFun f k v n = f n := by
  simp [updFun, h]

/-- Exceptions the modelled Python code can raise. -/
inductive PyErr where
  | indexError
  | valueError
  | tclError
  | attributeError
deriving DecidableEq, Repr

/-- List indexing with the CPython IndexError behaviour. -/
def listIdx {α : Type} (l : List α) (i : ℕ) : Except PyErr α :=
  match l.get? i with
  | some a => .ok a
  | none => .error .indexError

/-- Python l[-1]. -/
def pyLast {α : Type} (l : List α) : Except PyErr α :=
  match l.getLast? with
  | some a => .ok a
  | none => .error .indexError

/-- Python l[-2]. -/
def pyPenult {α : Type} (l : List α) : Except PyErr α :=
  match l.dropLast.getLast? with
  | some a => .ok a
  | none => .error .indexError

/-- Elements l[0], l[1], l[2], l[3], failing like CPython indexing. -/
def idx4 {α : Type} (l : List α) : Except PyErr (α × α × α × α) :=
  match listIdx l 0 with
  | .error e => .error e
  | .ok a =>
    match listIdx l 1 with
    | .error e => .error e
    | .ok b =>
      match listIdx l 2 with
      | .error e => .error e
      | .ok c =>
        match listIdx l 3 with
        | .error e => .error e
        | .ok d => .ok (a, b, c, d)

/-- Python int() applied to the textual form of a token.  Integer
renderings parse to the integer; anything else raises ValueError.
CPython also rejects integral float renderings such as "35.0"; the
development only evaluates this on integer-valued tokens, where the two
agree. -/
def tokInt (t : Tok) : Except PyErr ℤ :=
  match t with
  | .num q => if q.den = 1 then .ok q.num else .error .valueError
  | .str _ => .error .valueError

/-- int() of args[0] through args[3], left to right. -/
def tokInt4 (args : List Tok) : Except PyErr (ℤ × ℤ × ℤ × ℤ) :=
  match idx4 args with
  | .error e => .error e
  | .ok (t0, t1, t2, t3) =>
    match tokInt t0 with
    | .error e => .error e
    | .ok a =>
      match tokInt t1 with
      | .error e => .error e
      | .ok b =>
        match tokInt t2 with
        | .error e => .error e
        | .ok c =>
          match tokInt t3 with
          | .error e => .error e
          | .ok d => .ok (a, b, c, d)

/-- String content of a token used as a color or style.  In every
reachable call the token is a string token. -/
def tokStr (t : Tok) : String :=
  match t with
  | .str s => s
  | .num _ => ""

/-- Truthiness of an askstring result: None and "" are falsy. -/
def pyTruthy (o : Option String) : Bool :=
  match o with
  | none => false
  | some s => s != ""

/-- Allocate a canvas item, returning its id.  Item ids start at 1, as
in tkinter, so a bound id is always truthy. -/
def addItem (st : CanvasState) (it : RenderItem) : CanvasState × ℕ :=
  ({ st with items := updFun st.items st.nextItem (some it),
             nextItem := st.nextItem + 1 }, st.nextItem)

/-- canvas.create_line(x1, y1, x2, y2, fill=color). -/
def create_line (st : CanvasState) (a b c d : ℚ) (fill : String) :
    CanvasState × ℕ :=
  addItem st ⟨"line", [a, b, c, d], fill, "", [], 1⟩

/-- canvas.create_rectangle(x1, y1, x2, y2, outline=color). -/
def create_rectangle (st : CanvasState) (a b c d : ℚ) (outline : String) :
    CanvasState × ℕ :=
  addItem st ⟨"rectangle", [a, b, c, d], "", outline, [], 1⟩

/-- canvas.create_polygon(points, outline=..., fill=..., smooth=True). -/
def create_polygon (st : CanvasState) (pts : List ℚ) (outline fill : String) :
    CanvasState × ℕ :=
  addItem st ⟨"polygon", pts, fill, outline, [], 1⟩

/-- canvas.delete(item id). -/
def deleteItem (st : CanvasState) (iid : ℕ) : CanvasState :=
  { st with items := updFun st.items iid none }

/-- canvas.delete applied to a Shape.shape_id field; a None id is the
tag "None", which matches no item, so nothing happens. -/
def deleteOptItem (st : CanvasState) (oid : Option ℕ) : CanvasState :=
  match oid with
  | none => st
  | some i => deleteItem st i

/-- canvas.type(id): the item type string, None-propagating on a dead
or unbound handle (where tkinter raises). -/
def typeOf (st : CanvasState) (oid : Option ℕ) : Option String :=
  (oid.bind st.items).map RenderItem.rtype

/-- canvas.coords(id): the coordinate list; an id matching no item
yields the empty list, as for an unmatched tag. -/
def coordsPy (st : CanvasState) (oid : Option ℕ) : List ℚ :=
  ((oid.bind st.items).map RenderItem.coords).getD []

/-- canvas.itemcget(id, "fill"). -/
def itemFill (st : CanvasState) (oid : Option ℕ) : String :=
  ((oid.bind st.items).map RenderItem.fill).getD ""

/-- canvas.itemcget(id, "outline"). -/
def itemOutline (st : CanvasState) (oid : Option ℕ) : String :=
  ((oid.bind st.items).map RenderItem.outline).getD ""

/-- canvas.itemcget(id, "tags"). -/
def itemTags (st : CanvasState) (oid : Option ℕ) : List String :=
  ((oid.bind st.items).map RenderItem.tags).getD []

/-- Membership test "r" in itemcget(id, "tags"): a substring test on
the space-joined tag string, which for the single-character needle "r"
holds exactly when some tag contains the character r. -/
def tagsHaveR (tags : List String) : Bool :=
  tags.any (fun tg => tg.contains 'r')

/-- canvas.itemconfig(id, fill=c); no-op on a missing item (every call
site has just type-checked the id). -/
def setItemFill (st : CanvasState) (oid : Option ℕ) (c : String) : CanvasState :=
  match oid with
  | none => st
  | some i =>
    match st.items i with
    | none => st
    | some it => { st with items := updFun st.items i (some { it with fill := c }) }

/-- canvas.itemconfig(id, width=w). -/
def setItemWidth (st : CanvasState) (oid : Option ℕ) (w : ℚ) : CanvasState :=
  match oid with
  | none => st
  | some i =>
    match st.items i with
    | none => st
    | some it => { st with items := updFun st.items i (some { it with width := w }) }

/-- Python enumerate(l) starting at index i. -/
def pyEnum {α : Type} : ℕ → List α → List (ℕ × α)
  | _, [] => []
  | i, a :: l => (i, a) :: pyEnum (i + 1) l

/-- Shift a tkinter coordinate list by (dx, dy): x entries sit at even
positions, y entries at odd positions. -/
def shiftCoords (cs : List ℚ) (dx dy : ℚ) : List ℚ :=
  (pyEnum 0 cs).map (fun p => if p.1 % 2 = 0 then p.2 + dx else p.2 + dy)

/-- canvas.move(id, dx, dy); unmatched ids move nothing. -/
def moveItem (st : CanvasState) (oid : Option ℕ) (dx dy : ℚ) : CanvasState :=
  match oid with
  | none => st
  | some i =>
    match st.items i with
    | none => st
    | some it =>
      { st with items := updFun st.items i (some { it with coords := shiftCoords it.coords dx dy }) }

/-- show_popup_message: the external messagebox, as an event log. -/
def popupMsg (st : CanvasState) (m : String) : CanvasState :=
  { st with popups := st.popups ++ [m] }

/-- DrawCanvas.clear_properties_text. -/
def clear_properties_text (st : CanvasState) : CanvasState :=
  let st1 := st.properties_text_ids.foldl (fun s t => deleteItem s t) st
  { st1 with properties_text_ids := [] }

/-- Allocate a Shape object on the heap, returning its id. -/
def allocShape (st : CanvasState) (s : ShapeObj) : CanvasState × ℕ :=
  ({ st with shapeHeap := updFun st.shapeHeap st.nextShape s,
             nextShape := st.nextShape + 1 }, st.nextShape)

/-- Update one Shape object in place. -/
def updShape (st : CanvasState) (sid : ℕ) (f : ShapeObj → ShapeObj) : CanvasState :=
  { st with shapeHeap := updFun st.shapeHeap sid (f (st.shapeHeap sid)) }

/-- Line.__init__(canvas, start_x, start_y, end_x, end_y, color). -/
def mkLine (a b c d : ℚ) (color : String) : ShapeObj :=
  ⟨.line, a, b, c, d, color, "", none, []⟩

/-- Rectangle.__init__(canvas, start_x, start_y, end_x, end_y, color, style). -/
def mkRectangle (a b c d : ℚ) (color style : String) : ShapeObj :=
  ⟨.rect, a, b, c, d, color, style, none, []⟩

/-- Control points of Rectangle.draw_rounded_rectangle, verbatim from
the source. -/
def roundedRectPoints (x1 y1 x2 y2 radius : ℚ) : List ℚ :=
  [x1 + radius, y1, x1 + radius, y1, x2 - radius, y1, x2 - radius, y1, x2, y1,
   x2, y1 + radius, x2, y1 + radius, x2, y2 - radius, x2, y2 - radius, x2, y2,
   x2 - radius, y2, x2 - radius, y2, x1 + radius, y2, x1 + radius, y2, x1, y2,
   x1, y2 - radius, x1, y2 - radius, x1, y1 + radius, x1, y1 + radius, x1, y1]

/-- Item created by Line.update or Rectangle.update for the given
corner arguments: a line item, a sharp rectangle item, a smoothed
polygon for style "r", and nothing for any other rectangle style. -/
def updateItemOf (s : ShapeObj) (a b c d : ℚ) : Option RenderItem :=
  match s.kind with
  | .line => some ⟨"line", [a, b, c, d], s.color, "", [], 1⟩
  | .rect =>
    if s.style = "s" then some ⟨"rectangle", [a, b, c, d], "", s.color, [], 1⟩
    else if s.style = "r" then
      some ⟨"polygon", roundedRectPoints a b c d 20, "", s.color, [], 1⟩
    else none

/-- Line.update / Rectangle.update on the shape with heap id sid:
delete the previous item if one is bound, then create the new item and
bind its id (for an unknown rectangle style no item is created and the
previous id is left in place, now dangling, as in the source). -/
def shapeUpdate (st : CanvasState) (sid : ℕ) (a b c d : ℚ) : CanvasState :=
  let s := st.shapeHeap sid
  let st1 :=
    match s.shape_id with
    | some i => deleteItem st i
    | none => st
  match updateItemOf s a b c d with
  | some it =>
    let p := addItem st1 it
    updShape p.1 sid (fun sh => { sh with shape_id := some p.2 })
  | none => st1

/-- The line written for one shape by
DrawCanvas.construct_shape_from_shape_object: the leading type token is
re-read from the render surface (canvas.type of the live handle), the
remaining fields come from the stored attributes of the shape object. -/
def shapeLine (st : CanvasState) (sid : ℕ) : Except PyErr (List Tok) :=
  let s := st.shapeHeap sid
  match typeOf st s.shape_id with
  | none => .error .tclError
  | some t =>
    if t = "rectangle" then
      .ok [.str t, .num s.x1, .num s.y1, .num s.x2, .num s.y2, .str s.color, .str s.style]
    else
      .ok [.str t, .num s.x1, .num s.y1, .num s.x2, .num s.y2, .str s.color]

/-- Loop of construct_shape_from_shape_object over shape_object. -/
def constructLoop (st : CanvasState) : List ℕ → Except PyErr (List (List Tok))
  | [] => .ok []
  | sid :: rest =>
    match shapeLine st sid with
    | .error e => .error e
    | .ok ln =>
      match constructLoop st rest with
      | .error e => .error e
      | .ok lns => .ok (ln :: lns)

/-- DrawCanvas.construct_shape_from_shape_object: rebuild the shapes
string list, one line per entry of shape_object, in order. -/
def construct_shape_from_shape_object (st : CanvasState) : Except PyErr CanvasState :=
  match constructLoop st st.shape_object with
  | .error e => .error e
  | .ok lns => .ok { st with shapes := lns }

/-- FileManager.save_file once a filename is fixed: flatten the shape
objects into the shapes list, then write one line per entry.  The
written file is returned next to the state; the save dialog (and the
silent return when it is cancelled) stays outside the model. -/
def save_file (st : CanvasState) : Except PyErr (CanvasState × List (List Tok)) :=
  match construct_shape_from_shape_object st with
  | .error e => .error e
  | .ok st1 => .ok (st1, st1.shapes)

/-- Loading of a single stored line by DrawCanvas.redraw_shapes.  Note
the variable binding order in the rectangle branch of the source:
x1, x2, y1, y2 = int(args[0]), int(args[1]), int(args[2]), int(args[3]),
followed by Rectangle(self, x1, y1, x2, y2, color, style), so the
constructed rectangle receives args[0], args[2], args[1], args[3] as
its corner fields.  Lines whose first token is neither "line" nor
"rectangle" are ignored. -/
def redrawLine (st : CanvasState) (tokens : List Tok) : Except PyErr CanvasState :=
  match tokens with
  | [] => .ok st
  | t0 :: args =>
    if t0 = Tok.str "line" then
      match tokInt4 args with
      | .error e => .error e
      | .ok (a, b, c, d) =>
        match pyLast args with
        | .error e => .error e
        | .ok ct =>
          let color := tokStr ct
          let p := allocShape st (mkLine (a : ℚ) (b : ℚ) (c : ℚ) (d : ℚ) color)
          let st2 := { p.1 with current_shape := some (.shapeRef p.2),
                                shape_object := p.1.shape_object ++ [p.2] }
          .ok (shapeUpdate st2 p.2 (a : ℚ) (b : ℚ) (c : ℚ) (d : ℚ))
    else if t0 = Tok.str "rectangle" then
      match tokInt4 args with
      | .error e => .error e
      | .ok (a, b, c, d) =>
        match pyPenult args with
        | .error e => .error e
        | .ok ct =>
          match pyLast args with
          | .error e => .error e
          | .ok stTok =>
            let color := tokStr ct
            let style := tokStr stTok
            let p := allocShape st (mkRectangle (a : ℚ) (c : ℚ) (b : ℚ) (d : ℚ) color style)
            let st2 := { p.1 with current_shape := some (.shapeRef p.2),
                                  shape_object := p.1.shape_object ++ [p.2] }
            .ok (shapeUpdate st2 p.2 (a : ℚ) (c : ℚ) (b : ℚ) (d : ℚ))
    else .ok st

/-- Loop of redraw_shapes over a fixed list of stored lines. -/
def redrawLoop (st : CanvasState) : List (List Tok) → Except PyErr CanvasState
  | [] => .ok st
  | ln :: rest =>
    match redrawLine st ln with
    | .error e => .error e
    | .ok st1 => redrawLoop st1 rest

/-- DrawCanvas.redraw_shapes. -/
def redraw_shapes (st : CanvasState) : Except PyErr CanvasState :=
  redrawLoop st st.shapes

/-- FileManager.open_file once a file is chosen: set file_opened, clear
the shapes string list and refill it with the file lines, wipe the
render surface (canvas.delete("all")) and redraw.  The unsaved-changes
confirmation and the open dialog stay outside the model.  As in the
source, shape_object, selected_shapes and the heaps are not touched
before redrawing. -/
def open_file (st : CanvasState) (fileLines : List (List Tok)) : Except PyErr CanvasState :=
  redraw_shapes { st with file_opened := true, shapes := fileLines,
                          items := fun _ => none }

/-- Loop of DrawCanvas.delete_shape over the selection. -/
def deleteLoop (st : CanvasState) : List ℕ → CanvasState
  | [] => st
  | sid :: rest =>
    let st1 := deleteOptItem st (st.shapeHeap sid).shape_id
    let st2 := { st1 with shape_object := st1.shape_object.erase sid }
    deleteLoop st2 rest

/-- DrawCanvas.delete_shape: delete every selected shape from the
render surface and from shape_object, then clear the selection. -/
def delete_shape (st : CanvasState) : CanvasState :=
  { deleteLoop st st.selected_shapes with selected_shapes := [] }

/-- DrawCanvas.update_rectangle_style: read the coordinates of the
given item, build a fresh Rectangle object held only by current_shape
(never added to shape_object), and create the restyled item; in the
sharp branch the raw item id is assigned to current_shape, in the
rounded branch the polygon id returned by draw_rounded_rectangle is
discarded. -/
def update_rectangle_style (st : CanvasState) (oid : Option ℕ) (style color : String) :
    Except PyErr CanvasState :=
  let cs := coordsPy st oid
  match idx4 cs with
  | .error e => .error e
  | .ok (c0, c1, c2, c3) =>
    let p := allocShape st (mkRectangle c0 c1 c2 c3 color style)
    let st2 := { p.1 with current_shape := some (.shapeRef p.2) }
    if style = "r" then
      .ok (create_polygon st2 (roundedRectPoints c0 c1 c2 c3 20) color "").1
    else if style = "s" then
      let q := create_rectangle st2 c0 c1 c2 c3 color
      .ok { q.1 with current_shape := some (.itemRef q.2) }
    else .ok st2

/-- DrawCanvas.edit_selected_shape, with the two askstring results as
arguments (None models a cancelled dialog, "" an empty answer; the line
branch only shows the color prompt).  Mirrors the source exactly: a
multi-selection only pops a message; otherwise selected_shapes[0] is
read unconditionally; and delete_shape plus clear_properties_text run
at the end on every path, including when a prompt was cancelled. -/
def edit_selected_shape (st : CanvasState) (pColor pStyle : Option String) :
    Except PyErr CanvasState :=
  if st.selected_shapes.length > 1 then
    .ok (popupMsg st "Multiple objects cannot be edited at once")
  else
    match st.selected_shapes.head? with
    | none => .error .indexError
    | some sid0 =>
      let oid := (st.shapeHeap sid0).shape_id
      match typeOf st oid with
      | none => .error .tclError
      | some t =>
        let applied : Except PyErr CanvasState :=
          if t = "rectangle" then
            if pyTruthy pStyle && pyTruthy pColor then
              update_rectangle_style st oid (pStyle.getD "") (pColor.getD "")
            else .ok st
          else if t = "line" then
            if pyTruthy pColor then .ok (setItemFill st oid (pColor.getD ""))
            else .ok st
          else .ok st
        match applied with
        | .error e => .error e
        | .ok st1 => .ok (clear_properties_text (delete_shape st1))

/-- Coordinates offset by (offset_x, offset_y) = (50, 50) as in
DrawCanvas.copy_shape: even positions get offset_x, odd ones offset_y. -/
def newCoords50 (cs : List ℚ) : List ℚ :=
  let offX : ℚ := 50
  let offY : ℚ := 50
  (pyEnum 0 cs).map (fun p => if p.1 % 2 = 0 then p.2 + offX else p.2 + offY)

/-- DrawCanvas.draw_shape: update the current shape unless a file has
just been opened, and drop the tool.  Python would raise
AttributeError if current_shape held the raw item id left behind by
update_rectangle_style. -/
def draw_shape (st : CanvasState) (a b c d : ℚ) : Except PyErr CanvasState :=
  match st.current_shape with
  | none => .ok st
  | some (.itemRef _) => .error .attributeError
  | some (.shapeRef sid) =>
    let st1 := if st.file_opened = false then shapeUpdate st sid a b c d else st
    .ok { st1 with current_tool := none }

/-- Body of the copy_shape loop for one selected shape: read the item
coordinates and type, offset by (50, 50), and rebuild a shape of the
matching class; items that are neither "line" nor "rectangle" (notably
the polygons that render rounded rectangles) fall through both branches
and are not copied. -/
def copyStep (st : CanvasState) (sid : ℕ) : Except PyErr CanvasState :=
  let s := st.shapeHeap sid
  let cs := coordsPy st s.shape_id
  match typeOf st s.shape_id with
  | none => .error .tclError
  | some t =>
    let nc := newCoords50 cs
    if t = "rectangle" then
      let color := itemOutline st s.shape_id
      let style := if tagsHaveR (itemTags st s.shape_id) then "r" else "s"
      match idx4 nc with
      | .error e => .error e
      | .ok (n0, n1, n2, n3) =>
        let p := allocShape st (mkRectangle n0 n1 n2 n3 color style)
        let st2 := { p.1 with current_shape := some (.shapeRef p.2),
                              shape_object := p.1.shape_object ++ [p.2] }
        draw_shape st2 n0 n1 n2 n3
    else if t = "line" then
      let color := itemFill st s.shape_id
      match idx4 nc with
      | .error e => .error e
      | .ok (n0, n1, n2, n3) =>
        let p := allocShape st (mkLine n0 n1 n2 n3 color)
        let st2 := { p.1 with current_shape := some (.shapeRef p.2),
                              shape_object := p.1.shape_object ++ [p.2] }
        draw_shape st2 n0 n1 n2 n3
    else .ok st

/-- Loop of copy_shape over the (fixed) selection list. -/
def copyLoop (st : CanvasState) : List ℕ → Except PyErr CanvasState
  | [] => .ok st
  | sid :: rest =>
    match copyStep st sid with
    | .error e => .error e
    | .ok st1 => copyLoop st1 rest

/-- DrawCanvas.copy_shape. -/
def copy_shape (st : CanvasState) : Except PyErr CanvasState :=
  copyLoop st st.selected_shapes

/-- The copy branch of DrawCanvas.on_release: run copy_shape, then
reset mode to the idle mode "". -/
def on_release_copy (st : CanvasState) : Except PyErr CanvasState :=
  match copy_shape st with
  | .error e => .error e
  | .ok st1 => .ok { st1 with mode := "" }

/-- Displacement of one shape inside move_shape: remove it from
shape_object, move its item, shift its stored corners, and append it
back at the end of shape_object. -/
def moveOne (st : CanvasState) (sid : ℕ) (dx dy : ℚ) : CanvasState :=
  let st1 := { st with shape_object := st.shape_object.erase sid }
  let st2 := moveItem st1 (st1.shapeHeap sid).shape_id dx dy
  let st3 := updShape st2 sid
    (fun s => { s with x1 := s.x1 + dx, x2 := s.x2 + dx, y1 := s.y1 + dy, y2 := s.y2 + dy })
  { st3 with shape_object := st3.shape_object ++ [sid] }

/-- Loop of move_shape over the remaining selection. -/
def moveLoop (st : CanvasState) (dx dy : ℚ) : List ℕ → CanvasState
  | [] => st
  | sid :: rest => moveLoop (moveOne st sid dx dy) dx dy rest

/-- DrawCanvas.move_shape at pointer position (ex, ey): with a
non-empty selection, the displacement is the click point minus the
midpoint of the first two coordinate pairs of the first selected
shape item, and every selected shape is shifted by it.  With an empty
selection only the moving flag is set. -/
def move_shape (st : CanvasState) (ex ey : ℚ) : Except PyErr CanvasState :=
  let st0 := { st with moving := true }
  match st0.selected_shapes with
  | [] => .ok st0
  | first :: rest =>
    let ic := coordsPy st0 (st0.shapeHeap first).shape_id
    match idx4 ic with
    | .error e => .error e
    | .ok (c0, c1, c2, c3) =>
      let dx := ex - (c2 + c0) / 2
      let dy := ey - (c3 + c1) / 2
      .ok (moveLoop (moveOne st0 first dx dy) dx dy rest)

/-- Width reset of the selection highlight in on_click. -/
def widthLoop (st : CanvasState) : List ℕ → CanvasState
  | [] => st
  | sid :: rest => widthLoop (setItemWidth st (st.shapeHeap sid).shape_id 1) rest

/-- DrawCanvas.on_click: record the anchor, perform the deferred move
when in ready_to_move mode (then reset mode), and clear any existing
selection together with its property text. -/
def on_click (st : CanvasState) (ex ey : ℚ) : Except PyErr CanvasState :=
  let stA := { st with start_x := ex, start_y := ey }
  let step1 : Except PyErr CanvasState :=
    if stA.mode = "ready_to_move" then
      match move_shape stA ex ey with
      | .error e => .error e
      | .ok s => .ok { s with mode := "" }
    else .ok stA
  match step1 with
  | .error e => .error e
  | .ok st1 =>
    if st1.selected_shapes.isEmpty then .ok st1
    else
      let st2 := widthLoop st1 st1.selected_shapes
      .ok (clear_properties_text { st2 with selected_shapes := [] })

/-- Group.add_shapes: append the shape to the member list; a shape with
a non-empty groups stack contributes its innermost group to sub_grps
(deduplicated), a shape with an empty stack goes to indv_shapes. -/
def add_shapes (st : CanvasState) (gid sid : ℕ) : CanvasState :=
  let s := st.shapeHeap sid
  let g := st.groupHeap gid
  let g1 := { g with shapes := g.shapes ++ [sid] }
  let g2 :=
    match s.groups.getLast? with
    | some top =>
      if top ∈ g1.sub_grps then g1 else { g1 with sub_grps := g1.sub_grps ++ [top] }
    | none => { g1 with indv_shapes := g1.indv_shapes ++ [sid] }
  { st with groupHeap := updFun st.groupHeap gid g2 }

/-- Shape.add_group: push the group onto the groups stack. -/
def add_group (st : CanvasState) (sid gid : ℕ) : CanvasState :=
  updShape st sid (fun s => { s with groups := s.groups ++ [gid] })

/-- Loop of group_shapes: per selected shape, add_shapes on the new
group, then add_group on the shape (so add_shapes sees the stack
before the push). -/
def groupLoop (st : CanvasState) (gid : ℕ) : List ℕ → CanvasState
  | [] => st
  | sid :: rest => groupLoop (add_group (add_shapes st gid sid) sid gid) gid rest

/-- DrawCanvas.group_shapes: with at least two selected shapes,
allocate a fresh Group, fill it from the selection, record it in
canvas_group and announce it; otherwise do nothing at all. -/
def group_shapes (st : CanvasState) : CanvasState :=
  if st.selected_shapes.length > 1 then
    let gid := st.nextGroup
    let st1 := { st with groupHeap := updFun st.groupHeap gid ⟨[], [], []⟩,
                         nextGroup := gid + 1 }
    let st2 := groupLoop st1 gid st1.selected_shapes
    popupMsg { st2 with canvas_group := st2.canvas_group ++ [gid] } "Group Formed"
  else st

/-- Flag computation of ungroup_shapes: flag stays 0 exactly when every
selected shape has a non-empty groups stack whose last entry is g. -/
def ungroupOkFlag (st : CanvasState) (g : ℕ) : Bool :=
  st.selected_shapes.all (fun sid =>
    match (st.shapeHeap sid).groups.getLast? with
    | some top => top == g
    | none => false)

/-- Success loop of ungroup_shapes: pop the innermost group from each
selected shape and remove the shape from the member list of g. -/
def ungroupLoop (st : CanvasState) (g : ℕ) : List ℕ → CanvasState
  | [] => st
  | sid :: rest =>
    let st1 := updShape st sid (fun s => { s with groups := s.groups.dropLast })
    let g1 := { st1.groupHeap g with shapes := (st1.groupHeap g).shapes.erase sid }
    let st2 := { st1 with groupHeap := updFun st1.groupHeap g g1 }
    ungroupLoop st2 g rest

/-- DrawCanvas.ungroup_shapes: with a non-empty selection, take the
innermost group g of the first selected shape; if every selected shape
has g as its innermost group, pop it everywhere and report success,
otherwise report the no-common-group message and change nothing.  An
empty selection does nothing. -/
def ungroup_shapes (st : CanvasState) : CanvasState :=
  match st.selected_shapes with
  | [] => st
  | first :: _ =>
    match (st.shapeHeap first).groups.getLast? with
    | none => popupMsg st "The selected elements do not belong to a common group"
    | some g =>
      if ungroupOkFlag st g then
        popupMsg (ungroupLoop st g st.selected_shapes) "Objects Ungrouped"
      else
        popupMsg st "The selected elements do not belong to a common group"

/-- Tokens actually written for one shape, as a function of its stored
fields and of the type string obtained from its render handle: this is
the shape of the line produced by construct_shape_from_shape_object. -/
def storedTokens (s : ShapeObj) (t : String) : List Tok :=
  if t = "rectangle" then
    [.str t, .num s.x1, .num s.y1, .num s.x2, .num s.y2, .str s.color, .str s.style]
  else
    [.str t, .num s.x1, .num s.y1, .num s.x2, .num s.y2, .str s.color]

/-- Modelled from the spec: the line a save would write if, as the spec
sentence on flattening states, x1..y2, color and style were re-derived
from the current render handle of the shape (its item coordinates, its
outline or fill color, and its tags) instead of the stored fields.
Used only to compare against the behaviour of the source. -/
def specSaveLineFromRender (st : CanvasState) (sid : ℕ) : List Tok :=
  let s := st.shapeHeap sid
  let cs := coordsPy st s.shape_id
  match typeOf st s.shape_id with
  | none => []
  | some t =>
    if t = "rectangle" then
      [.str t, .num (cs.getD 0 0), .num (cs.getD 1 0), .num (cs.getD 2 0), .num (cs.getD 3 0),
       .str (itemOutline st s.shape_id),
       .str (if tagsHaveR (itemTags st s.shape_id) then "r" else "s")]
    else
      [.str t, .num (cs.getD 0 0), .num (cs.getD 1 0), .num (cs.getD 2 0), .num (cs.getD 3 0),
       .str (itemFill st s.shape_id)]

/-- The Shape object built by one successful copy_shape iteration for
the selected shape sid, when the new item receives id iid: class and
color follow the item type, all four coordinates are the item
coordinates offset by 50, and the style is re-derived from the tags. -/
def copiedShape (st : CanvasState) (sid iid : ℕ) : ShapeObj :=
  let s := st.shapeHeap sid
  let nc := newCoords50 (coordsPy st s.shape_id)
  let t := (typeOf st s.shape_id).getD ""
  if t = "rectangle" then
    { kind := .rect, x1 := nc.getD 0 0, y1 := nc.getD 1 0, x2 := nc.getD 2 0, y2 := nc.getD 3 0,
      color := itemOutline st s.shape_id,
      style := if tagsHaveR (itemTags st s.shape_id) then "r" else "s",
      shape_id := some iid, groups := [] }
  else
    { kind := .line, x1 := nc.getD 0 0, y1 := nc.getD 1 0, x2 := nc.getD 2 0, y2 := nc.getD 3 0,
      color := itemFill st s.shape_id, style := "", shape_id := some iid, groups := [] }

/-- The render item drawn for that copy by draw_shape. -/
def copiedItem (st : CanvasState) (sid : ℕ) : Option RenderItem :=
  let c := copiedShape st sid 0
  updateItemOf c c.x1 c.y1 c.x2 c.y2

/-- Test mirroring the dispatch of the copy_shape loop body: the shape
is duplicated exactly when its live item has type "line" or
"rectangle".  Shapes failing it — notably rounded rectangles, drawn as
"polygon" items — fall through both branches and are skipped. -/
def copyablePred (st : CanvasState) (sid : ℕ) : Bool :=
  match typeOf st (st.shapeHeap sid).shape_id with
  | some t => t == "line" || t == "rectangle"
  | none => false

/-- A shape with its stored corners translated by (dx, dy), as done by
move_shape. -/
def shiftShape (s : ShapeObj) (dx dy : ℚ) : ShapeObj :=
  { s with x1 := s.x1 + dx, x2 := s.x2 + dx, y1 := s.y1 + dy, y2 := s.y2 + dy }

/-- First-occurrence deduplicating accumulation of the innermost groups
of a selection (gv gives each shape its pre-push groups stack): the
value taken by the sub_grps list of a freshly built group. -/
def subFold (gv : ℕ → List ℕ) (acc : List ℕ) : List ℕ → List ℕ
  | [] => acc
  | sid :: rest =>
    subFold gv
      (match (gv sid).getLast? with
       | some top => if top ∈ acc then acc else acc ++ [top]
       | none => acc) rest

/-- Placeholder shape held by unallocated heap slots. -/
def initShape : ShapeObj := ⟨.line, 0, 0, 0, 0, "", "", none, []⟩

/-- Placeholder group held by unallocated heap slots. -/
def initGroup : GroupObj := ⟨[], [], []⟩

/-- The DrawCanvas state right after __init__. -/
def initState : CanvasState :=
  { shapes := [], shape_object := [], selected_shapes := [],
    properties_text_ids := [], current_tool := none, current_color := "black",
    current_style := "s", start_x := 0, start_y := 0, current_shape := none,
    file_opened := false, mode := "", moving := false, canvas_group := [],
    shapeHeap := fun _ => initShape, groupHeap := fun _ => initGroup,
    items := fun _ => none, nextShape := 0, nextGroup := 0, nextItem := 1,
    popups := [] }

/-- Save under a fixed filename followed by opening the written file:
the round trip the text format is meant to support. -/
def saveThenOpen (st : CanvasState) : Except PyErr CanvasState :=
  match save_file st with
  | .ok p => open_file p.1 p.2
  | .error e => .error e

/-- A canvas holding one sharp blue rectangle with corners (0,10) and
(40,40), drawn as item 1 and selected. -/
def rectState : CanvasState :=
  { initState with
    shape_object := [0]
    selected_shapes := [0]
    shapeHeap := updFun initState.shapeHeap 0 ⟨.rect, 0, 10, 40, 40, "blue", "s", some 1, []⟩
    items := updFun initState.items 1 (some ⟨"rectangle", [0, 10, 40, 40], "", "blue", [], 1⟩)
    nextShape := 1
    nextItem := 2 }

/-- A canvas whose single rectangle has stale stored fields: the shape
object records corners (0,0)-(10,10) and color "black" while its item
on the render surface sits at (5,5)-(25,25) with outline "red". -/
def mismatchState : CanvasState :=
  { initState with
    shape_object := [0]
    shapeHeap := updFun initState.shapeHeap 0 ⟨.rect, 0, 0, 10, 10, "black", "s", some 1, []⟩
    items := updFun initState.items 1 (some ⟨"rectangle", [5, 5, 25, 25], "", "red", [], 1⟩)
    nextShape := 1
    nextItem := 2 }

/-- A canvas holding one black line from (1,2) to (3,4), drawn as
item 1. -/
def lineDocState : CanvasState :=
  { initState with
    shape_object := [0]
    shapeHeap := updFun initState.shapeHeap 0 ⟨.line, 1, 2, 3, 4, "black", "", some 1, []⟩
    items := updFun initState.items 1 (some ⟨"line", [1, 2, 3, 4], "black", "", [], 1⟩)
    nextShape := 1
    nextItem := 2 }

/-- A canvas holding one selected rounded black rectangle with corners
(0,0) and (100,100), rendered as the smoothed polygon item 1. -/
def roundedState : CanvasState :=
  { initState with
    shape_object := [0]
    selected_shapes := [0]
    shapeHeap := updFun initState.shapeHeap 0 ⟨.rect, 0, 0, 100, 100, "black", "r", some 1, []⟩
    items := updFun initState.items 1
      (some ⟨"polygon", roundedRectPoints 0 0 100 100 20, "", "black", [], 1⟩)
    nextShape := 1
    nextItem := 2 }

/-- A canvas with a selected black line (10,10)-(50,50) as item 1 and a
selected sharp blue rectangle (0,0)-(40,40) as item 2. -/
def copyPairState : CanvasState :=
  { initState with
    shape_object := [0, 1]
    selected_shapes := [0, 1]
    shapeHeap := updFun
      (updFun initState.shapeHeap 0 ⟨.line, 10, 10, 50, 50, "black", "", some 1, []⟩)
      1 ⟨.rect, 0, 0, 40, 40, "blue", "s", some 2, []⟩
    items := updFun
      (updFun initState.items 1 (some ⟨"line", [10, 10, 50, 50], "black", "", [], 1⟩))
      2 (some ⟨"rectangle", [0, 0, 40, 40], "", "blue", [], 1⟩)
    nextShape := 2
    nextItem := 3 }

/-- A canvas with two selected shapes that both belong to group 0 as
their only group. -/
def twoGroupedState : CanvasState :=
  { initState with
    shape_object := [0, 1]
    selected_shapes := [0, 1]
    shapeHeap := updFun
      (updFun initState.shapeHeap 0 ⟨.line, 0, 0, 5, 5, "black", "", some 1, [0]⟩)
      1 ⟨.line, 9, 9, 12, 12, "red", "", some 2, [0]⟩
    items := updFun
      (updFun initState.items 1 (some ⟨"line", [0, 0, 5, 5], "black", "", [], 1⟩))
      2 (some ⟨"line", [9, 9, 12, 12], "red", "", [], 1⟩)
    groupHeap := updFun initState.groupHeap 0 ⟨[0, 1], [0, 1], []⟩
    canvas_group := [0]
    nextShape := 2
    nextGroup := 1
    nextItem := 3 }

/-- A canvas with two plain selected shapes that belong to no group. -/
def twoShapesState : CanvasState :=
  { initState with
    shape_object := [0, 1]
    selected_shapes := [0, 1]
    shapeHeap := updFun
      (updFun initState.shapeHeap 0 ⟨.line, 0, 0, 5, 5, "black", "", some 1, []⟩)
      1 ⟨.line, 9, 9, 12, 12, "red", "", some 2, []⟩
    items := updFun
      (updFun initState.items 1 (some ⟨"line", [0, 0, 5, 5], "black", "", [], 1⟩))
      2 (some ⟨"line", [9, 9, 12, 12], "red", "", [], 1⟩)
    nextShape := 2
    nextItem := 3 }

/-- A canvas with two selected shapes of which only the first already
belongs to a group (group 5), the other having an empty groups stack. -/
def mixedGroupState : CanvasState :=
  { initState with
    shape_object := [0, 1]
    selected_shapes := [0, 1]
    shapeHeap := updFun
      (updFun initState.shapeHeap 0 ⟨.line, 0, 0, 5, 5, "black", "", some 1, [5]⟩)
      1 ⟨.line, 9, 9, 12, 12, "red", "", some 2, []⟩
    items := updFun
      (updFun initState.items 1 (some ⟨"line", [0, 0, 5, 5], "black", "", [], 1⟩))
      2 (some ⟨"line", [9, 9, 12, 12], "red", "", [], 1⟩)
    groupHeap := updFun initState.groupHeap 5 ⟨[0], [0], []⟩
    canvas_group := [5]
    nextShape := 2
    nextGroup := 6
    nextItem := 3 }

/-- A canvas with a selected black line (10,10)-(30,30) as item 1 and a
selected sharp blue rectangle (0,0)-(40,40) as item 2, both in the
document. -/
def movePairState : CanvasState :=
  { initState with
    shape_object := [0, 1]
    selected_shapes := [0, 1]
    shapeHeap := updFun
      (updFun initState.shapeHeap 0 ⟨.line, 10, 10, 30, 30, "black", "", some 1, []⟩)
      1 ⟨.rect, 0, 0, 40, 40, "blue", "s", some 2, []⟩
    items := updFun
      (updFun initState.items 1 (some ⟨"line", [10, 10, 30, 30], "black", "", [], 1⟩))
      2 (some ⟨"rectangle", [0, 0, 40, 40], "", "blue", [], 1⟩)
    nextShape := 2
    nextItem := 3 }

/-- A canvas with a mixed selection: a black line (10,10)-(50,50) as
item 1, a rounded black rectangle (0,0)-(100,100) rendered as the
polygon item 2, and a sharp blue rectangle (0,0)-(40,40) as item 3, all
three selected and in the document. -/
def mixedCopyState : CanvasState :=
  { initState with
    shape_object := [0, 1, 2]
    selected_shapes := [0, 1, 2]
    shapeHeap := updFun (updFun (updFun initState.shapeHeap
      0 ⟨.line, 10, 10, 50, 50, "black", "", some 1, []⟩)
      1 ⟨.rect, 0, 0, 100, 100, "black", "r", some 2, []⟩)
      2 ⟨.rect, 0, 0, 40, 40, "blue", "s", some 3, []⟩
    items := updFun (updFun (updFun initState.items
      1 (some ⟨"line", [10, 10, 50, 50], "black", "", [], 1⟩))
      2 (some ⟨"polygon", roundedRectPoints 0 0 100 100 20, "", "black", [], 1⟩))
      3 (some ⟨"rectangle", [0, 0, 40, 40], "", "blue", [], 1⟩)
    nextShape := 3
    nextItem := 4 }

/-!
Theorems.  One principal theorem per claim of the specification, with
witnesses for theorems carrying hypotheses and counterexamples where
the claim fails on the source.
-/

/-- C1: the text-format round trip loses rectangle geometry.  Saving
the document of rectState, which holds the sharp rectangle with stored
corners (0,10) and (40,40), writes exactly the documented line
rectangle 0 10 40 40 blue s; reloading that very file rebuilds a
rectangle whose stored fields are x1 = 0, y1 = 40, x2 = 10, y2 = 40,
because the loader binds the second and third tokens to x2 and y1
instead of y1 and x2.  The y1 and x2 roles are exchanged whenever they
differ, so the round trip does not restore the same four coordinates in
the same roles. -/
theorem c1_rect_roundtrip_swaps_y1_x2 :
    (save_file rectState).toOption.map Prod.snd
      = some [[Tok.str "rectangle", Tok.num 0, Tok.num 10, Tok.num 40, Tok.num 40,
               Tok.str "blue", Tok.str "s"]] ∧
    (saveThenOpen rectState).toOption.map
        (fun st => ((st.shapeHeap 1).x1, (st.shapeHeap 1).y1,
                    (st.shapeHeap 1).x2, (st.shapeHeap 1).y2))
      = some (0, 40, 10, 40) ∧
    ((rectState.shapeHeap 0).x1, (rectState.shapeHeap 0).y1,
     (rectState.shapeHeap 0).x2, (rectState.shapeHeap 0).y2) = (0, 10, 40, 40) := by
  refine ⟨?_, ?_, ?_⟩ <;>
    simp [saveThenOpen, save_file, construct_shape_from_shape_object, constructLoop,
      shapeLine, typeOf, open_file, redraw_shapes, redrawLoop, redrawLine, tokInt4, idx4,
      listIdx, tokInt, pyLast, pyPenult, tokStr, allocShape, mkLine, mkRectangle,
      shapeUpdate, updateItemOf, addItem, deleteItem, updShape, updFun, initState,
      initShape, rectState, Except.toOption]

/-- C2: a cancelled edit prompt does not leave the document unchanged.
Editing the single selected rectangle of rectState with the style
prompt answered "r" but the color prompt cancelled performs no restyle,
yet still deletes the selected shape: shape_object becomes empty and
item 1 is removed from the render surface, while no new shape object or
item is created (the allocation counters stay at 1 and 2). -/
theorem c2_cancelled_edit_still_deletes :
    (edit_selected_shape rectState none (some "r")).toOption.map
        (fun st => (st.shape_object, st.items 1, st.nextShape, st.nextItem))
      = some ([], none, 1, 2) ∧
    rectState.shape_object = [0] ∧ rectState.items 1 ≠ none := by
  refine ⟨?_, ?_, ?_⟩ <;>
    simp [rectState, edit_selected_shape, typeOf, pyTruthy, update_rectangle_style,
      delete_shape, deleteLoop, deleteOptItem, deleteItem, clear_properties_text,
      updFun, initState, initShape, Except.toOption]

/-- C4: opening a file does not clear the in-memory shape collection.
Opening a one-line file over lineDocState, whose document already holds
shape 0, leaves the stale object in place: shape_object afterwards is
[0, 1] rather than only the shape read from the file, the stale shape 0
now points at a wiped render handle (its canvas type lookup fails), and
the loaded line occupies the fresh slot 1. -/
theorem c4_open_keeps_stale_shape_objects :
    (open_file lineDocState
        [[Tok.str "line", Tok.num 9, Tok.num 8, Tok.num 7, Tok.num 6, Tok.str "green"]]).toOption.map
        (fun st => (st.shape_object, typeOf st ((st.shapeHeap 0).shape_id),
          ((st.shapeHeap 1).x1, (st.shapeHeap 1).y1, (st.shapeHeap 1).x2, (st.shapeHeap 1).y2,
           (st.shapeHeap 1).color)))
      = some ([0, 1], none, (9, 8, 7, 6, "green")) := by
  simp [lineDocState, open_file, redraw_shapes, redrawLoop, redrawLine, tokInt4, idx4,
    listIdx, tokInt, pyLast, pyPenult, tokStr, allocShape, mkLine, mkRectangle,
    shapeUpdate, updateItemOf, addItem, deleteItem, updShape, updFun, typeOf,
    initState, initShape, Except.toOption]

/-- C9: edit_selected_shape guards only the multi-selection case, where
it pops a message and changes nothing else; with an empty selection it
reads selected_shapes[0] unconditionally and raises IndexError instead
of being a silent no-op. -/
theorem c9_edit_empty_selection_raises (st : CanvasState) (pColor pStyle : Option String) :
    (st.selected_shapes = [] →
      edit_selected_shape st pColor pStyle = .error .indexError) ∧
    (1 < st.selected_shapes.length →
      edit_selected_shape st pColor pStyle
        = .ok (popupMsg st "Multiple objects cannot be edited at once")) := by
  constructor
  · intro h
    simp [edit_selected_shape, h]
  · intro h
    simp [edit_selected_shape, h]

/-- Witness for C9 at the freshly initialised canvas, whose selection
is empty. -/
theorem c9_edit_empty_selection_raises_witness :
    edit_selected_shape initState none none = Except.error PyErr.indexError :=
  (c9_edit_empty_selection_raises initState none none).1 rfl

/-- C3 counterexample: on mismatchState, whose stored rectangle fields
(corners (0,0)-(10,10), color "black") disagree with its render item
(coordinates (5,5)-(25,25), outline "red"), the save path writes the
stored fields.  The line predicted by the spec sentence, re-derived
from the render handle, differs. -/
theorem c3_counterexample_save_ignores_render_state :
    (construct_shape_from_shape_object mismatchState).toOption.map CanvasState.shapes
      = some [[Tok.str "rectangle", Tok.num 0, Tok.num 0, Tok.num 10, Tok.num 10,
               Tok.str "black", Tok.str "s"]] ∧
    specSaveLineFromRender mismatchState 0
      = [Tok.str "rectangle", Tok.num 5, Tok.num 5, Tok.num 25, Tok.num 25,
         Tok.str "red", Tok.str "s"] ∧
    (construct_shape_from_shape_object mismatchState).toOption.map CanvasState.shapes
      ≠ some [specSaveLineFromRender mismatchState 0] := by
  refine ⟨?_, ?_, ?_⟩ <;>
    simp [mismatchState, construct_shape_from_shape_object, constructLoop, shapeLine,
      specSaveLineFromRender, typeOf, coordsPy, itemOutline, itemFill, itemTags,
      tagsHaveR, updFun, initState, initShape, Except.toOption]

/-- Helper for C3: when every shape in the given list has a live render
handle, the construct loop succeeds and yields exactly the map of
storedTokens, a function of the stored fields and of the type string
alone. -/
theorem constructLoop_eq_map (st : CanvasState) (sel : List ℕ)
    (h : ∀ sid ∈ sel, (typeOf st (st.shapeHeap sid).shape_id).isSome) :
    constructLoop st sel = .ok (sel.map (fun sid =>
      storedTokens (st.shapeHeap sid) ((typeOf st (st.shapeHeap sid).shape_id).getD ""))) := by
  induction sel with
  | nil => simp [constructLoop]
  | cons sid rest ih =>
    obtain ⟨t, ht⟩ := Option.isSome_iff_exists.mp (h sid (List.mem_cons_self sid rest))
    have ihr := ih (fun s hs => h s (List.mem_cons_of_mem sid hs))
    simp only [constructLoop, shapeLine, ht, ihr, List.map_cons, Option.getD_some]
    split_ifs with hT <;> simp [storedTokens, hT]

/-- C3 amended: on save, each written line is derived from the stored
fields of its shape object (x1, y1, x2, y2, color and, for rectangles,
style); only the leading shape-type token is re-read from the shape
current render handle.  In particular the written line is independent
of the item coordinates, colors and tags held by the render surface. -/
theorem c3_amended_save_reads_stored_fields (st : CanvasState)
    (h : ∀ sid ∈ st.shape_object, (typeOf st (st.shapeHeap sid).shape_id).isSome) :
    construct_shape_from_shape_object st
      = .ok { st with shapes := st.shape_object.map (fun sid =>
          storedTokens (st.shapeHeap sid) ((typeOf st (st.shapeHeap sid).shape_id).getD "")) } := by
  simp [construct_shape_from_shape_object, constructLoop_eq_map st st.shape_object h]

/-- Witness for C3 amended at rectState, whose single rectangle has a
live render handle. -/
theorem c3_amended_save_reads_stored_fields_witness :
    construct_shape_from_shape_object rectState
      = .ok { rectState with shapes := rectState.shape_object.map (fun sid =>
          storedTokens (rectState.shapeHeap sid)
            ((typeOf rectState (rectState.shapeHeap sid).shape_id).getD "")) } :=
  c3_amended_save_reads_stored_fields rectState (by decide)

/-- Helper: one getLast? fact used when splitting on a groups stack. -/
theorem getLastQ_eq_none_iff {α : Type} (l : List α) : l.getLast? = none ↔ l = [] := by
  cases l with
  | nil => simp
  | cons a t => simp [List.getLast?_eq_getLast]

/-- Helper: the group loop never touches canvas_group, nextGroup, the
popup log or the selection. -/
theorem groupLoop_fields (sel : List ℕ) : ∀ (st : CanvasState) (gid : ℕ),
    (groupLoop st gid sel).canvas_group = st.canvas_group ∧
    (groupLoop st gid sel).nextGroup = st.nextGroup ∧
    (groupLoop st gid sel).popups = st.popups ∧
    (groupLoop st gid sel).selected_shapes = st.selected_shapes := by
  induction sel with
  | nil => intro st gid; simp [groupLoop]
  | cons sid rest ih =>
    intro st gid
    simpa [groupLoop, add_group, add_shapes, updShape] using ih _ gid

/-- Helper: the member list of the group being built gains exactly the
processed shapes, in order. -/
theorem groupLoop_member_list (sel : List ℕ) : ∀ (st : CanvasState) (gid : ℕ),
    ((groupLoop st gid sel).groupHeap gid).shapes = (st.groupHeap gid).shapes ++ sel := by
  induction sel with
  | nil => intro st gid; simp [groupLoop]
  | cons sid rest ih =>
    intro st gid
    rw [groupLoop, ih]
    cases hE : (st.shapeHeap sid).groups.getLast? with
    | none => simp [add_group, add_shapes, updShape, updFun, hE]
    | some top =>
      simp only [add_group, add_shapes, updShape, updFun, hE]
      split_ifs <;> simp

/-- Helper: shapes outside the processed list keep their heap entry. -/
theorem groupLoop_heap_untouched (sel : List ℕ) : ∀ (st : CanvasState) (gid sid : ℕ),
    sid ∉ sel → (groupLoop st gid sel).shapeHeap sid = st.shapeHeap sid := by
  induction sel with
  | nil => intro st gid sid _; simp [groupLoop]
  | cons s rest ih =>
    intro st gid sid hmem
    have hne : sid ≠ s := fun h => hmem (h ▸ List.mem_cons_self s rest)
    have hrest : sid ∉ rest := fun h => hmem (List.mem_cons_of_mem s h)
    rw [groupLoop, ih _ _ _ hrest]
    simp [add_group, add_shapes, updShape, updFun, hne]

/-- Helper: each processed shape has the new group pushed onto its
stack, once, when the processed list has no duplicates. -/
theorem groupLoop_pushes (sel : List ℕ) : ∀ (st : CanvasState) (gid : ℕ), sel.Nodup →
    ∀ sid ∈ sel,
      ((groupLoop st gid sel).shapeHeap sid).groups = (st.shapeHeap sid).groups ++ [gid] := by
  induction sel with
  | nil => intro st gid _ sid h; simp at h
  | cons s rest ih =>
    intro st gid hnd sid hmem
    have hns : s ∉ rest := (List.nodup_cons.mp hnd).1
    rcases List.mem_cons.mp hmem with rfl | hr
    · rw [groupLoop, groupLoop_heap_untouched rest _ _ _ hns]
      simp [add_group, add_shapes, updShape, updFun]
    · have hne : sid ≠ s := fun h => hns (h ▸ hr)
      rw [groupLoop, ih _ _ (List.nodup_cons.mp hnd).2 sid hr]
      simp [add_group, add_shapes, updShape, updFun, hne]

/-- C6: grouping fewer than two shapes is a complete no-op, with no
group created and no message; grouping at least two creates exactly one
fresh group whose member list is the selection, records it in
canvas_group, reports success, and (for duplicate-free selections)
pushes the new group once onto every selected shape. -/
theorem c6_group_needs_two_shapes (st : CanvasState) :
    (st.selected_shapes.length < 2 → group_shapes st = st) ∧
    (2 ≤ st.selected_shapes.length →
      (group_shapes st).canvas_group = st.canvas_group ++ [st.nextGroup] ∧
      (group_shapes st).nextGroup = st.nextGroup + 1 ∧
      ((group_shapes st).groupHeap st.nextGroup).shapes = st.selected_shapes ∧
      (group_shapes st).popups = st.popups ++ ["Group Formed"] ∧
      (st.selected_shapes.Nodup → ∀ sid ∈ st.selected_shapes,
        ((group_shapes st).shapeHeap sid).groups
          = (st.shapeHeap sid).groups ++ [st.nextGroup])) := by
  constructor
  · intro h
    have : ¬ st.selected_shapes.length > 1 := by omega
    simp [group_shapes, this]
  · intro h
    have hgt : st.selected_shapes.length > 1 := by omega
    have hfields := groupLoop_fields st.selected_shapes
      { st with groupHeap := updFun st.groupHeap st.nextGroup ⟨[], [], []⟩,
                nextGroup := st.nextGroup + 1 } st.nextGroup
    refine ⟨?_, ?_, ?_, ?_, ?_⟩
    · simp [group_shapes, hgt, popupMsg, hfields.1]
    · simp [group_shapes, hgt, popupMsg, hfields.2.1]
    · simp [group_shapes, hgt, popupMsg, groupLoop_member_list, updFun]
    · simp [group_shapes, hgt, popupMsg, hfields.2.2.1]
    · intro hnd sid hmem
      have := groupLoop_pushes st.selected_shapes
        { st with groupHeap := updFun st.groupHeap st.nextGroup ⟨[], [], []⟩,
                  nextGroup := st.nextGroup + 1 } st.nextGroup hnd sid hmem
      simpa [group_shapes, hgt, popupMsg] using this

/-- Witness for C6: a single-shape selection is left exactly as it was,
and grouping the two plain shapes of twoShapesState builds group 0 with
member list [0, 1] and pushes it onto both stacks. -/
theorem c6_group_needs_two_shapes_witness :
    group_shapes rectState = rectState ∧
    ((group_shapes twoShapesState).groupHeap 0).shapes = [0, 1] ∧
    ((group_shapes twoShapesState).shapeHeap 1).groups = [0] := by
  refine ⟨(c6_group_needs_two_shapes rectState).1 (by decide), ?_, ?_⟩
  · have h := ((c6_group_needs_two_shapes twoShapesState).2 (by decide)).2.2.1
    simpa using h
  · have h := ((c6_group_needs_two_shapes twoShapesState).2 (by decide)).2.2.2.2
      (by decide) 1 (by decide)
    simpa using h

/-- Helper: add_group never touches the group heap. -/
theorem add_group_groupHeap (st : CanvasState) (sid gid : ℕ) :
    (add_group st sid gid).groupHeap = st.groupHeap := rfl

/-- Helper: effect of add_shapes on the indv_shapes list of the target
group. -/
theorem add_shapes_indv (st : CanvasState) (gid s : ℕ) :
    ((add_shapes st gid s).groupHeap gid).indv_shapes
      = if (st.shapeHeap s).groups.isEmpty
        then (st.groupHeap gid).indv_shapes ++ [s]
        else (st.groupHeap gid).indv_shapes := by
  cases hE : (st.shapeHeap s).groups.getLast? with
  | none =>
    have hnil : (st.shapeHeap s).groups = [] := (getLastQ_eq_none_iff _).mp hE
    simp [add_shapes, updFun, hE, hnil]
  | some top =>
    have hne : (st.shapeHeap s).groups.isEmpty = false := by
      cases hq : (st.shapeHeap s).groups
      · rw [hq] at hE; simp at hE
      · simp
    simp only [add_shapes, updFun, hE, hne, updFun_self]
    split_ifs <;> simp_all

/-- Helper: effect of add_shapes on the sub_grps list of the target
group. -/
theorem add_shapes_sub (st : CanvasState) (gid s : ℕ) :
    ((add_shapes st gid s).groupHeap gid).sub_grps
      = match (st.shapeHeap s).groups.getLast? with
        | some top =>
          if top ∈ (st.groupHeap gid).sub_grps
          then (st.groupHeap gid).sub_grps
          else (st.groupHeap gid).sub_grps ++ [top]
        | none => (st.groupHeap gid).sub_grps := by
  cases hE : (st.shapeHeap s).groups.getLast? with
  | none => simp [add_shapes, updFun, hE]
  | some top =>
    simp only [add_shapes, updFun, hE, updFun_self]
    split_ifs <;> simp_all

/-- Helper: membership in a subFold accumulation. -/
theorem mem_subFold (gv : ℕ → List ℕ) (sel : List ℕ) : ∀ (acc : List ℕ) (x : ℕ),
    x ∈ subFold gv acc sel ↔ x ∈ acc ∨ ∃ sid ∈ sel, (gv sid).getLast? = some x := by
  induction sel with
  | nil => intro acc x; simp [subFold]
  | cons s rest ih =>
    intro acc x
    cases hE : (gv s).getLast? with
    | none =>
      rw [subFold, hE, ih]
      simp [hE]
    | some top =>
      simp only [subFold, hE]
      by_cases htop : top ∈ acc
      · rw [if_pos htop, ih]
        constructor
        · rintro (h | ⟨sid, hsid, hl⟩)
          · exact .inl h
          · exact .inr ⟨sid, List.mem_cons_of_mem s hsid, hl⟩
        · rintro (h | ⟨sid, hsid, hl⟩)
          · exact .inl h
          · rcases List.mem_cons.mp hsid with rfl | hr
            · rw [hE] at hl
              exact .inl (by rw [← Option.some_inj.mp hl]; exact htop)
            · exact .inr ⟨sid, hr, hl⟩
      · rw [if_neg htop, ih]
        constructor
        · rintro (h | ⟨sid, hsid, hl⟩)
          · rcases List.mem_append.mp h with h2 | h2
            · exact .inl h2
            · refine .inr ⟨s, List.mem_cons_self s rest, ?_⟩
              rw [List.mem_singleton.mp h2]
              exact hE
          · exact .inr ⟨sid, List.mem_cons_of_mem s hsid, hl⟩
        · rintro (h | ⟨sid, hsid, hl⟩)
          · exact .inl (List.mem_append.mpr (.inl h))
          · rcases List.mem_cons.mp hsid with rfl | hr
            · rw [hE] at hl
              exact .inl (List.mem_append.mpr (.inr (by simp [Option.some_inj.mp hl])))
            · exact .inr ⟨sid, hr, hl⟩

/-- Helper: a subFold accumulation stays duplicate-free. -/
theorem subFold_nodup (gv : ℕ → List ℕ) (sel : List ℕ) : ∀ acc : List ℕ,
    acc.Nodup → (subFold gv acc sel).Nodup := by
  induction sel with
  | nil => intro acc h; simpa [subFold] using h
  | cons s rest ih =>
    intro acc h
    cases hE : (gv s).getLast? with
    | none => rw [subFold, hE]; exact ih acc h
    | some top =>
      simp only [subFold, hE]
      split_ifs with htop
      · exact ih acc h
      · refine ih _ ?_
        simp [List.nodup_append, h, htop]

/-- Helper: the partition computed by the group loop, relative to the
pre-push groups stacks recorded by gv: indv_shapes collects exactly the
members whose stack was empty, and sub_grps is the first-occurrence
deduplication of the innermost groups of the others. -/
theorem groupLoop_partition (sel : List ℕ) : ∀ (st : CanvasState) (gid : ℕ) (gv : ℕ → List ℕ),
    sel.Nodup → (∀ sid ∈ sel, (st.shapeHeap sid).groups = gv sid) →
    ((groupLoop st gid sel).groupHeap gid).indv_shapes
        = (st.groupHeap gid).indv_shapes ++ sel.filter (fun sid => (gv sid).isEmpty) ∧
    ((groupLoop st gid sel).groupHeap gid).sub_grps
        = subFold gv (st.groupHeap gid).sub_grps sel := by
  induction sel with
  | nil => intro st gid gv _ _; simp [groupLoop, subFold]
  | cons s rest ih =>
    intro st gid gv hnd hgv
    have hs : (st.shapeHeap s).groups = gv s := hgv s (List.mem_cons_self s rest)
    have hns : s ∉ rest := (List.nodup_cons.mp hnd).1
    have hgv2 : ∀ sid ∈ rest,
        ((add_group (add_shapes st gid s) s gid).shapeHeap sid).groups = gv sid := by
      intro sid hsid
      have hne : sid ≠ s := fun h => hns (h ▸ hsid)
      simpa [add_group, add_shapes, updShape, updFun, hne]
        using hgv sid (List.mem_cons_of_mem s hsid)
    obtain ⟨h1, h2⟩ := ih (add_group (add_shapes st gid s) s gid) gid gv
      (List.nodup_cons.mp hnd).2 hgv2
    constructor
    · rw [groupLoop, h1, add_group_groupHeap, add_shapes_indv, hs]
      by_cases hq : (gv s).isEmpty
      · simp [hq, List.filter_cons]
      · simp [hq, List.filter_cons]
    · rw [groupLoop, h2, add_group_groupHeap, add_shapes_sub, hs, subFold]

/-- C8 counterexample: grouping the two selected shapes of
mixedGroupState, where shape 0 has innermost group 5 and shape 1 has no
group at all (so the top group of shape 0 is shared with no other
member), still leaves shape 0 out of indv_shapes: the new group 6 has
indv_shapes = [1] and carries group 5 in sub_grps instead, contradicting
the claimed membership of unshared-top shapes in directShapes. -/
theorem c8_counterexample_unshared_top_not_direct :
    ((group_shapes mixedGroupState).groupHeap 6).indv_shapes = [1] ∧
    (0 : ℕ) ∉ ((group_shapes mixedGroupState).groupHeap 6).indv_shapes ∧
    (mixedGroupState.shapeHeap 0).groups = [5] ∧
    (mixedGroupState.shapeHeap 1).groups = [] ∧
    ((group_shapes mixedGroupState).groupHeap 6).sub_grps = [5] := by
  refine ⟨?_, ?_, ?_, ?_, ?_⟩ <;>
    simp [group_shapes, groupLoop, add_shapes, add_group, updShape, updFun,
      popupMsg, mixedGroupState, initState, initShape, initGroup]

/-- C8 amended: for a duplicate-free selection of at least two shapes,
the fresh group partitions its members as the source does: indv_shapes
(directShapes) holds exactly the members whose groups stack was empty
before the push, in selection order, and sub_grps (subGroups) is the
first-occurrence deduplication of the innermost pre-push groups of the
members that had one — duplicate-free, and containing precisely those
groups that are the innermost group of some member.  Members whose
innermost group is shared with no other member still land in sub_grps,
not in indv_shapes. -/
theorem c8_amended_group_partition (st : CanvasState)
    (h2 : 2 ≤ st.selected_shapes.length) (hnd : st.selected_shapes.Nodup) :
    ((group_shapes st).groupHeap st.nextGroup).indv_shapes
        = st.selected_shapes.filter (fun sid => (st.shapeHeap sid).groups.isEmpty) ∧
    ((group_shapes st).groupHeap st.nextGroup).sub_grps
        = subFold (fun sid => (st.shapeHeap sid).groups) [] st.selected_shapes ∧
    ((group_shapes st).groupHeap st.nextGroup).sub_grps.Nodup ∧
    (∀ g2, g2 ∈ ((group_shapes st).groupHeap st.nextGroup).sub_grps ↔
      ∃ sid ∈ st.selected_shapes, (st.shapeHeap sid).groups.getLast? = some g2) := by
  have hgt : st.selected_shapes.length > 1 := by omega
  obtain ⟨h1, hsub⟩ := groupLoop_partition st.selected_shapes
    { st with groupHeap := updFun st.groupHeap st.nextGroup ⟨[], [], []⟩,
              nextGroup := st.nextGroup + 1 } st.nextGroup
    (fun sid => (st.shapeHeap sid).groups) hnd (fun _ _ => rfl)
  refine ⟨?_, ?_, ?_, ?_⟩
  · simpa [group_shapes, hgt, popupMsg, updFun] using h1
  · simpa [group_shapes, hgt, popupMsg, updFun] using hsub
  · have := subFold_nodup (fun sid => (st.shapeHeap sid).groups) st.selected_shapes
      [] List.nodup_nil
    simpa [group_shapes, hgt, popupMsg, updFun, hsub] using this
  · intro g2
    have := mem_subFold (fun sid => (st.shapeHeap sid).groups) st.selected_shapes [] g2
    simpa [group_shapes, hgt, popupMsg, updFun, hsub] using this

/-- Witness for C8 amended at mixedGroupState: the partition evaluates
to indv_shapes [1] and sub_grps [5]. -/
theorem c8_amended_group_partition_witness :
    ((group_shapes mixedGroupState).groupHeap 6).indv_shapes
        = mixedGroupState.selected_shapes.filter
            (fun sid => (mixedGroupState.shapeHeap sid).groups.isEmpty) ∧
    ((group_shapes mixedGroupState).groupHeap 6).sub_grps
        = subFold (fun sid => (mixedGroupState.shapeHeap sid).groups) []
            mixedGroupState.selected_shapes := by
  have h := c8_amended_group_partition mixedGroupState (by decide) (by decide)
  exact ⟨h.1, h.2.1⟩

/-- Helper: the ungroup loop leaves the popup log and the selection
untouched. -/
theorem ungroupLoop_fields (sel : List ℕ) : ∀ (st : CanvasState) (g : ℕ),
    (ungroupLoop st g sel).popups = st.popups ∧
    (ungroupLoop st g sel).selected_shapes = st.selected_shapes := by
  induction sel with
  | nil => intro st g; simp [ungroupLoop]
  | cons s rest ih =>
    intro st g
    simpa [ungroupLoop, updShape] using ih _ g

/-- Helper: pointwise effect of the ungroup loop on the shape heap for
a duplicate-free list: processed shapes lose their innermost group
once, all others keep their entry. -/
theorem ungroupLoop_heap (sel : List ℕ) : ∀ (st : CanvasState) (g : ℕ), sel.Nodup → ∀ sid,
    (ungroupLoop st g sel).shapeHeap sid
      = if sid ∈ sel
        then { st.shapeHeap sid with groups := (st.shapeHeap sid).groups.dropLast }
        else st.shapeHeap sid := by
  induction sel with
  | nil => intro st g _ sid; simp [ungroupLoop]
  | cons s rest ih =>
    intro st g hnd sid
    have hns : s ∉ rest := (List.nodup_cons.mp hnd).1
    rw [ungroupLoop, ih _ _ (List.nodup_cons.mp hnd).2 sid]
    by_cases hmem : sid ∈ rest
    · have hne : sid ≠ s := fun h => hns (h ▸ hmem)
      simp [hmem, hne, updShape, updFun, List.mem_cons]
    · by_cases heq : sid = s
      · subst heq
        simp [hmem, updShape, updFun]
      · simp [hmem, heq, updShape, updFun]

/-- Helper: the member list of g loses the processed shapes by repeated
list removal, exactly as the remove calls perform it. -/
theorem ungroupLoop_group (sel : List ℕ) : ∀ (st : CanvasState) (g : ℕ),
    ((ungroupLoop st g sel).groupHeap g).shapes
      = sel.foldl List.erase (st.groupHeap g).shapes := by
  induction sel with
  | nil => intro st g; simp [ungroupLoop]
  | cons s rest ih =>
    intro st g
    rw [ungroupLoop, ih]
    simp [updShape, updFun]

/-- Helper: repeated erasure only removes elements. -/
theorem mem_of_mem_foldl_erase (sel : List ℕ) : ∀ (l : List ℕ) (x : ℕ),
    x ∈ sel.foldl List.erase l → x ∈ l := by
  induction sel with
  | nil => intro l x h; simpa using h
  | cons s rest ih =>
    intro l x h
    exact List.mem_of_mem_erase (ih (l.erase s) x h)

/-- Helper: erasing every element of sel from a duplicate-free list
removes each of them for good. -/
theorem foldl_erase_not_mem (sel : List ℕ) : ∀ (l : List ℕ) (x : ℕ),
    l.Nodup → x ∈ sel → x ∉ sel.foldl List.erase l := by
  induction sel with
  | nil => intro l x _ h; simp at h
  | cons s rest ih =>
    intro l x hl hx
    rcases List.mem_cons.mp hx with rfl | hr
    · intro hcon
      have := mem_of_mem_foldl_erase rest (l.erase x) x hcon
      exact ((hl.mem_erase_iff).mp this).1 rfl
    · exact ih (l.erase s) x (hl.erase s) hr

/-- Helper: the flag loop of ungroup_shapes accepts exactly the
selections in which every shape has g as innermost group. -/
theorem ungroupOkFlag_iff (st : CanvasState) (g : ℕ) :
    ungroupOkFlag st g = true ↔
      ∀ sid ∈ st.selected_shapes, (st.shapeHeap sid).groups.getLast? = some g := by
  simp only [ungroupOkFlag, List.all_eq_true]
  constructor
  · intro h sid hs
    have hb := h sid hs
    cases hE : (st.shapeHeap sid).groups.getLast? with
    | none => rw [hE] at hb; simp at hb
    | some t => rw [hE] at hb; simpa using hb
  · intro h sid hs
    rw [h sid hs]
    simp

/-- C5: ungroup succeeds exactly on the non-empty selections whose
shapes all carry the same innermost group g (for an empty selection
nothing at all happens, matching the claim vacuously); on success it
pops g off every selected shape's stack, touches no other shape,
removes every selected shape from g's member list and reports success;
otherwise it reports the no-common-group message and the state is the
unchanged state with only that message appended — no partial pop. -/
theorem c5_ungroup_atomic (st : CanvasState) (hnd : st.selected_shapes.Nodup) :
    (st.selected_shapes = [] → ungroup_shapes st = st) ∧
    (∀ g, st.selected_shapes ≠ [] →
      (∀ sid ∈ st.selected_shapes, (st.shapeHeap sid).groups.getLast? = some g) →
      (ungroup_shapes st).popups = st.popups ++ ["Objects Ungrouped"] ∧
      (∀ sid ∈ st.selected_shapes,
        ((ungroup_shapes st).shapeHeap sid).groups = (st.shapeHeap sid).groups.dropLast) ∧
      (∀ sid, sid ∉ st.selected_shapes → (ungroup_shapes st).shapeHeap sid = st.shapeHeap sid) ∧
      ((ungroup_shapes st).groupHeap g).shapes
          = st.selected_shapes.foldl List.erase (st.groupHeap g).shapes ∧
      ((st.groupHeap g).shapes.Nodup →
        ∀ sid ∈ st.selected_shapes, sid ∉ ((ungroup_shapes st).groupHeap g).shapes)) ∧
    (st.selected_shapes ≠ [] →
      (¬ ∃ g, ∀ sid ∈ st.selected_shapes, (st.shapeHeap sid).groups.getLast? = some g) →
      ungroup_shapes st
        = popupMsg st "The selected elements do not belong to a common group") := by
  refine ⟨?_, ?_, ?_⟩
  · intro h
    simp [ungroup_shapes, h]
  · intro g hne hall
    cases hsel : st.selected_shapes with
    | nil => exact absurd hsel hne
    | cons first rest =>
      rw [hsel] at hall hnd
      have hfirst : (st.shapeHeap first).groups.getLast? = some g :=
        hall first (List.mem_cons_self first rest)
      have hflag : ungroupOkFlag st g = true := by
        rw [ungroupOkFlag_iff, hsel]
        exact hall
      have hrun : ungroup_shapes st
          = popupMsg (ungroupLoop st g (first :: rest)) "Objects Ungrouped" := by
        simp only [ungroup_shapes, hsel, hfirst, hflag, if_true]
      refine ⟨?_, ?_, ?_, ?_, ?_⟩
      · rw [hrun]
        simp [popupMsg, (ungroupLoop_fields (first :: rest) st g).1]
      · intro sid hmem
        rw [hrun]
        simp only [popupMsg]
        rw [ungroupLoop_heap (first :: rest) st g hnd sid, if_pos hmem]
      · intro sid hmem
        rw [hrun]
        simp only [popupMsg]
        rw [ungroupLoop_heap (first :: rest) st g hnd sid, if_neg hmem]
      · rw [hrun]
        simp only [popupMsg]
        exact ungroupLoop_group (first :: rest) st g
      · intro hnd2 sid hmem
        rw [hrun]
        simp only [popupMsg]
        rw [ungroupLoop_group (first :: rest) st g]
        exact foldl_erase_not_mem (first :: rest) (st.groupHeap g).shapes sid hnd2 hmem
  · intro hne hnex
    cases hsel : st.selected_shapes with
    | nil => exact absurd hsel hne
    | cons first rest =>
      rw [hsel] at hnex
      cases hfirst : (st.shapeHeap first).groups.getLast? with
      | none =>
        simp only [ungroup_shapes, hsel, hfirst]
      | some gh =>
        have hflag : ungroupOkFlag st gh = false := by
          rcases hb : ungroupOkFlag st gh with _ | _
          · rfl
          · refine absurd ⟨gh, ?_⟩ hnex
            have := (ungroupOkFlag_iff st gh).mp hb
            rw [hsel] at this
            exact this
        simp only [ungroup_shapes, hsel, hfirst, hflag, Bool.false_eq_true, if_false]

/-- Witness for C5 at twoGroupedState: ungrouping the two shapes of
group 0 empties both stacks and the member list and reports success. -/
theorem c5_ungroup_atomic_witness :
    ((ungroup_shapes twoGroupedState).shapeHeap 0).groups = [] ∧
    ((ungroup_shapes twoGroupedState).shapeHeap 1).groups = [] ∧
    (ungroup_shapes twoGroupedState).popups = ["Objects Ungrouped"] ∧
    ((ungroup_shapes twoGroupedState).groupHeap 0).shapes = [] := by
  obtain ⟨hp, hdrop, hun, hg, hnm⟩ :=
    (c5_ungroup_atomic twoGroupedState (by decide)).2.1 0 (by decide) (by decide)
  refine ⟨?_, ?_, ?_, ?_⟩
  · simpa [twoGroupedState, initState, updFun] using hdrop 0 (by decide)
  · simpa [twoGroupedState, initState, updFun] using hdrop 1 (by decide)
  · simpa [twoGroupedState, initState] using hp
  · simpa [twoGroupedState, initState, initGroup, updFun] using hg

/-- Helper: overwriting the same heap slot twice keeps the last value. -/
@[simp] theorem updFun_updFun {α : Type} (f : ℕ → α) (k : ℕ) (v w : α) :
    updFun (updFun f k v) k w = updFun f k w := by
  funext n
  by_cases h : n = k <;> simp [updFun, h]

/-- Helper: a list of length four is literally a four-element list. -/
theorem list_len4 {α : Type} {l : List α} (h : l.length = 4) :
    ∃ a b c d, l = [a, b, c, d] := by
  rcases l with _ | ⟨a, _ | ⟨b, _ | ⟨c, _ | ⟨d, _ | ⟨e, t⟩⟩⟩⟩⟩ <;> simp at h
  exact ⟨a, b, c, d, rfl⟩

/-- Helper: the (50, 50) offset on a four-coordinate item. -/
theorem newCoords50_four (a b c d : ℚ) :
    newCoords50 [a, b, c, d] = [a + 50, b + 50, c + 50, d + 50] := by
  simp [newCoords50, pyEnum]

/-- Helper: copiedShape and copiedItem only look at the heap entry of
sid and at the item it points to, so they are stable under state
changes that preserve those. -/
theorem copiedShape_stable (st st2 : CanvasState) (sid : ℕ)
    (hheap : st2.shapeHeap sid = st.shapeHeap sid)
    (hitems : ∀ i, (st.shapeHeap sid).shape_id = some i → st2.items i = st.items i) :
    (∀ k, copiedShape st2 sid k = copiedShape st sid k) ∧
    copiedItem st2 sid = copiedItem st sid ∧
    copyablePred st2 sid = copyablePred st sid := by
  cases hid : (st.shapeHeap sid).shape_id with
  | none =>
    refine ⟨?_, ?_, ?_⟩
    · intro k
      simp [copiedShape, coordsPy, typeOf, itemFill, itemOutline, itemTags, hheap, hid]
    · simp [copiedItem, copiedShape, coordsPy, typeOf, itemFill, itemOutline, itemTags,
        hheap, hid]
    · simp [copyablePred, typeOf, hheap, hid]
  | some i =>
    have hi := hitems i hid
    refine ⟨?_, ?_, ?_⟩
    · intro k
      simp [copiedShape, coordsPy, typeOf, itemFill, itemOutline, itemTags, hheap, hid, hi]
    · simp [copiedItem, copiedShape, coordsPy, typeOf, itemFill, itemOutline, itemTags,
        hheap, hid, hi]
    · simp [copyablePred, typeOf, hheap, hid, hi]

/-- Helper: one copy_shape iteration on a shape whose item is a line or
a rectangle with four coordinates appends one fresh shape object (the
50-offset copy) and draws one fresh item for it. -/
theorem copyStep_spec (st : CanvasState) (sid iid : ℕ) (it : RenderItem)
    (hfile : st.file_opened = false)
    (hid : (st.shapeHeap sid).shape_id = some iid)
    (hit : st.items iid = some it)
    (hty : it.rtype = "line" ∨ it.rtype = "rectangle")
    (hlen : it.coords.length = 4) :
    copyStep st sid = .ok
      { st with
        shape_object := st.shape_object ++ [st.nextShape]
        shapeHeap := updFun st.shapeHeap st.nextShape (copiedShape st sid st.nextItem)
        items := updFun st.items st.nextItem (copiedItem st sid)
        current_shape := some (.shapeRef st.nextShape)
        current_tool := none
        nextShape := st.nextShape + 1
        nextItem := st.nextItem + 1 } := by
  obtain ⟨a, b, c, d, hcs⟩ := list_len4 hlen
  rcases hty with hty | hty
  · have hne : it.rtype ≠ "rectangle" := by rw [hty]; decide
    simp [copyStep, coordsPy, typeOf, itemFill, itemOutline, itemTags, hid, hit, hcs, hty,
      hne, newCoords50_four, idx4, listIdx, mkLine, allocShape, draw_shape, shapeUpdate,
      updateItemOf, addItem, updShape, copiedShape, copiedItem, hfile, updFun_updFun,
      List.getD]
  · by_cases htag : tagsHaveR it.tags <;>
      simp [copyStep, coordsPy, typeOf, itemFill, itemOutline, itemTags, hid, hit, hcs, hty,
        htag, newCoords50_four, idx4, listIdx, mkRectangle, allocShape, draw_shape,
        shapeUpdate, updateItemOf, addItem, updShape, copiedShape, copiedItem, hfile,
        updFun_updFun, List.getD]

/-- Helper: a shifted initial segment of the naturals, cons form. -/
theorem range_shift_map (ns n : ℕ) :
    (List.range (n + 1)).map (fun k => ns + k)
      = ns :: (List.range n).map (fun k => ns + 1 + k) := by
  rw [List.range_succ_eq_map]
  simp only [List.map_cons, List.map_map, Nat.add_zero]
  refine congrArg _ (List.map_congr_left ?_)
  intro a _
  simp [Function.comp]
  omega

/-- Helper: a copy_shape iteration on a shape whose live item is
neither a line nor a rectangle changes nothing at all. -/
theorem copyStep_skip (st : CanvasState) (sid iid : ℕ) (it : RenderItem)
    (hid : (st.shapeHeap sid).shape_id = some iid)
    (hit : st.items iid = some it)
    (hty1 : it.rtype ≠ "rectangle") (hty2 : it.rtype ≠ "line") :
    copyStep st sid = .ok st := by
  simp [copyStep, typeOf, hid, hit, hty1, hty2]

/-- Helper: filtering with pointwise-equal predicates. -/
theorem filterCongr {α : Type} {p q : α → Bool} :
    ∀ l : List α, (∀ x ∈ l, p x = q x) → l.filter p = l.filter q := by
  intro l
  induction l with
  | nil => intro _; rfl
  | cons a t ih =>
    intro h
    rw [List.filter_cons, List.filter_cons, h a (List.mem_cons_self a t),
      ih (fun x hx => h x (List.mem_cons_of_mem a hx))]

/-- Helper: the copy loop over an arbitrary list of shapes with live
render items.  The shapes passing copyablePred (line or rectangle
items) each contribute, in selection order, one fresh 50-offset shape
object with one fresh item; the others — the polygon-rendered rounded
rectangles — contribute nothing.  Every pre-existing heap slot, the
selection, the popup log and the mode are untouched. -/
theorem copyLoop_spec (sel : List ℕ) : ∀ (st : CanvasState),
    st.file_opened = false →
    (∀ sid ∈ sel, sid < st.nextShape) →
    (∀ sid ∈ sel, ∃ iid it, (st.shapeHeap sid).shape_id = some iid ∧ iid < st.nextItem ∧
      st.items iid = some it ∧
      ((it.rtype = "line" ∨ it.rtype = "rectangle") → it.coords.length = 4)) →
    ∃ st2, copyLoop st sel = .ok st2 ∧
      st2.shape_object = st.shape_object
        ++ (List.range (sel.filter (copyablePred st)).length).map (fun k => st.nextShape + k) ∧
      (∀ k s2, (sel.filter (copyablePred st)).get? k = some s2 →
        st2.shapeHeap (st.nextShape + k) = copiedShape st s2 (st.nextItem + k)) ∧
      (∀ n, n < st.nextShape → st2.shapeHeap n = st.shapeHeap n) ∧
      (∀ k s2, (sel.filter (copyablePred st)).get? k = some s2 →
        st2.items (st.nextItem + k) = copiedItem st s2) ∧
      (∀ i, i < st.nextItem → st2.items i = st.items i) ∧
      st2.selected_shapes = st.selected_shapes ∧
      st2.popups = st.popups ∧
      st2.mode = st.mode ∧
      st2.nextShape = st.nextShape + (sel.filter (copyablePred st)).length ∧
      st2.nextItem = st.nextItem + (sel.filter (copyablePred st)).length := by
  induction sel with
  | nil =>
    intro st _ _ _
    exact ⟨st, by simp [copyLoop], by simp, by simp, by simp, by simp, by simp,
      rfl, rfl, rfl, by simp, by simp⟩
  | cons sid rest ih =>
    intro st hfile hbound hlive
    obtain ⟨iid, it, hid, hlt, hit, himp⟩ := hlive sid (List.mem_cons_self sid rest)
    have hpred : copyablePred st sid = (it.rtype == "line" || it.rtype == "rectangle") := by
      simp [copyablePred, typeOf, hid, hit]
    by_cases hcy : it.rtype = "line" ∨ it.rtype = "rectangle"
    · have hptrue : copyablePred st sid = true := by
        rw [hpred]
        rcases hcy with h | h <;> simp [h]
      have hfc : (sid :: rest).filter (copyablePred st)
          = sid :: rest.filter (copyablePred st) := by
        simp [List.filter_cons, hptrue]
      have hstep := copyStep_spec st sid iid it hfile hid hit hcy (himp hcy)
      set st1 : CanvasState :=
        { st with
          shape_object := st.shape_object ++ [st.nextShape]
          shapeHeap := updFun st.shapeHeap st.nextShape (copiedShape st sid st.nextItem)
          items := updFun st.items st.nextItem (copiedItem st sid)
          current_shape := some (.shapeRef st.nextShape)
          current_tool := none
          nextShape := st.nextShape + 1
          nextItem := st.nextItem + 1 } with hst1
      have hb2 : ∀ s2 ∈ rest, s2 < st1.nextShape := by
        intro s2 h2
        have := hbound s2 (List.mem_cons_of_mem sid h2)
        simp only [hst1]
        omega
      have hheap_pres : ∀ s2 ∈ rest, st1.shapeHeap s2 = st.shapeHeap s2 := by
        intro s2 h2
        have hb := hbound s2 (List.mem_cons_of_mem sid h2)
        simp only [hst1]
        exact updFun_ne _ _ _ (by omega)
      have hitem_pres : ∀ s2 ∈ rest, ∀ i, (st.shapeHeap s2).shape_id = some i →
          st1.items i = st.items i := by
        intro s2 h2 i hi
        obtain ⟨iid2, it2, hid2, hlt2, _, _⟩ := hlive s2 (List.mem_cons_of_mem sid h2)
        rw [hid2] at hi
        cases hi
        simp only [hst1]
        exact updFun_ne _ _ _ (by omega)
      have hlive2 : ∀ s2 ∈ rest, ∃ iid2 it2, (st1.shapeHeap s2).shape_id = some iid2 ∧
          iid2 < st1.nextItem ∧ st1.items iid2 = some it2 ∧
          ((it2.rtype = "line" ∨ it2.rtype = "rectangle") → it2.coords.length = 4) := by
        intro s2 h2
        obtain ⟨iid2, it2, hid2, hlt2, hit2, himp2⟩ := hlive s2 (List.mem_cons_of_mem sid h2)
        refine ⟨iid2, it2, ?_, ?_, ?_, himp2⟩
        · rw [hheap_pres s2 h2]; exact hid2
        · simp only [hst1]; omega
        · simp only [hst1]
          rw [updFun_ne _ _ _ (by omega)]
          exact hit2
      have hfilter1 : rest.filter (copyablePred st1) = rest.filter (copyablePred st) :=
        filterCongr rest (fun x hx =>
          (copiedShape_stable st st1 x (hheap_pres x hx) (hitem_pres x hx)).2.2)
      obtain ⟨st2, hloop, hso, hheap, hhu, hitems, hiu, hsel2, hpop, hmode, hns, hni⟩ :=
        ih st1 (by simp [hst1]; exact hfile) hb2 hlive2
      rw [hfilter1] at hso hheap hitems hns hni
      refine ⟨st2, ?_, ?_, ?_, ?_, ?_, ?_, ?_, ?_, ?_, ?_, ?_⟩
      · rw [copyLoop, hstep]
        exact hloop
      · rw [hso, hfc]
        simp only [hst1, List.length_cons, range_shift_map]
        simp [List.append_assoc]
      · intro k s2 hks
        rw [hfc] at hks
        cases k with
        | zero =>
          have hs2 : s2 = sid := by simpa using hks.symm
          subst hs2
          have h0 : st.nextShape + 0 < st1.nextShape := by simp [hst1]
          rw [hhu _ h0]
          simp [hst1, updFun_self]
        | succ j =>
          have hks2 : (rest.filter (copyablePred st)).get? j = some s2 := by
            simpa using hks
          have hmem : s2 ∈ rest :=
            List.mem_of_mem_filter (List.get?_mem hks2)
          have harith : st.nextShape + (j + 1) = st1.nextShape + j := by
            simp [hst1]; omega
          rw [harith, hheap j s2 hks2]
          have hstable := copiedShape_stable st st1 s2
            (hheap_pres _ hmem) (hitem_pres _ hmem)
          rw [hstable.1]
          have : st.nextItem + (j + 1) = st1.nextItem + j := by simp [hst1]; omega
          rw [← this]
      · intro n hn
        have : n < st1.nextShape := by simp [hst1]; omega
        rw [hhu n this]
        simp only [hst1]
        exact updFun_ne _ _ _ (by omega)
      · intro k s2 hks
        rw [hfc] at hks
        cases k with
        | zero =>
          have hs2 : s2 = sid := by simpa using hks.symm
          subst hs2
          have h0 : st.nextItem + 0 < st1.nextItem := by simp [hst1]
          rw [hiu _ h0]
          simp [hst1, updFun_self]
        | succ j =>
          have hks2 : (rest.filter (copyablePred st)).get? j = some s2 := by
            simpa using hks
          have hmem : s2 ∈ rest :=
            List.mem_of_mem_filter (List.get?_mem hks2)
          have harith : st.nextItem + (j + 1) = st1.nextItem + j := by
            simp [hst1]; omega
          rw [harith, hitems j s2 hks2]
          exact (copiedShape_stable st st1 s2 (hheap_pres _ hmem) (hitem_pres _ hmem)).2.1
      · intro i hi
        have : i < st1.nextItem := by simp [hst1]; omega
        rw [hiu i this]
        simp only [hst1]
        exact updFun_ne _ _ _ (by omega)
      · rw [hsel2]
      · rw [hpop]
      · rw [hmode]
      · rw [hns, hfc]
        simp [hst1]
        omega
      · rw [hni, hfc]
        simp [hst1]
        omega
    · have hpfalse : copyablePred st sid = false := by
        obtain ⟨h1, h2⟩ := not_or.mp hcy
        rw [hpred]
        simp [h1, h2]
      have hstep := copyStep_skip st sid iid it hid hit
        (not_or.mp hcy).2 (not_or.mp hcy).1
      have hfc : (sid :: rest).filter (copyablePred st)
          = rest.filter (copyablePred st) := by
        simp [List.filter_cons, hpfalse]
      obtain ⟨st2, hloop, hso, hheap, hhu, hitems, hiu, hsel2, hpop, hmode, hns, hni⟩ :=
        ih st hfile (fun s2 h2 => hbound s2 (List.mem_cons_of_mem sid h2))
          (fun s2 h2 => hlive s2 (List.mem_cons_of_mem sid h2))
      refine ⟨st2, ?_, ?_, ?_, hhu, ?_, hiu, hsel2, hpop, hmode, ?_, ?_⟩
      · rw [copyLoop, hstep]
        exact hloop
      · rw [hfc]
        exact hso
      · intro k s2 hks
        rw [hfc] at hks
        exact hheap k s2 hks
      · intro k s2 hks
        rw [hfc] at hks
        exact hitems k s2 hks
      · rw [hfc]
        exact hns
      · rw [hfc]
        exact hni

/-- C7 counterexample: the copy gesture does not duplicate every
selected shape.  On roundedState the selection holds the rounded
rectangle, rendered as a polygon item; releasing the pointer in copy
mode leaves the document exactly as it was (shape_object still [0], no
shape or item allocated) while resetting the mode — the shape is
silently skipped because its item type is neither "line" nor
"rectangle". -/
theorem c7_counterexample_rounded_rect_not_copied :
    roundedState.selected_shapes = [0] ∧
    (on_release_copy roundedState).toOption.map
        (fun st => (st.shape_object, st.nextShape, st.nextItem, st.mode))
      = some ([0], 1, 2, "") := by
  constructor
  · rfl
  · simp [on_release_copy, copy_shape, copyLoop, copyStep, typeOf, coordsPy, itemOutline,
      itemFill, itemTags, tagsHaveR, newCoords50, pyEnum, idx4, listIdx, roundedState,
      roundedRectPoints, initState, initShape, updFun, Except.toOption]

/-- C7 amended: on pointer-up in copy mode over any selection of shapes
with live render items, every selected shape whose item is a line or a
sharp rectangle (the shapes passing copyablePred) is duplicated: one
brand-new shape object is appended per such shape, in selection order,
whose four coordinates are the item coordinates offset by (+50, +50),
whose color is re-read from the item (fill for lines, outline for
rectangles) and whose style is re-derived from the item tags (always
"s" for the tag-less sharp rectangles this program creates, so color
and style are preserved).  Selected rounded rectangles render as
polygon items, fail copyablePred and are silently skipped: the
allocation counter grows by exactly the number of copyable shapes.  All
pre-existing shapes and items are untouched, the duplicates are not
added to the selection, no message is shown, and the mode resets to
idle. -/
theorem c7_amended_copy_offsets (st : CanvasState)
    (hfile : st.file_opened = false)
    (hbound : ∀ sid ∈ st.selected_shapes, sid < st.nextShape)
    (hlive : ∀ sid ∈ st.selected_shapes, ∃ iid it, (st.shapeHeap sid).shape_id = some iid ∧
      iid < st.nextItem ∧ st.items iid = some it ∧
      ((it.rtype = "line" ∨ it.rtype = "rectangle") → it.coords.length = 4)) :
    ∃ st2, on_release_copy st = .ok st2 ∧
      st2.mode = "" ∧
      st2.shape_object = st.shape_object
        ++ (List.range (st.selected_shapes.filter (copyablePred st)).length).map
            (fun k => st.nextShape + k) ∧
      (∀ k s2, (st.selected_shapes.filter (copyablePred st)).get? k = some s2 →
        st2.shapeHeap (st.nextShape + k) = copiedShape st s2 (st.nextItem + k)) ∧
      st2.nextShape = st.nextShape + (st.selected_shapes.filter (copyablePred st)).length ∧
      (∀ n, n < st.nextShape → st2.shapeHeap n = st.shapeHeap n) ∧
      (∀ i, i < st.nextItem → st2.items i = st.items i) ∧
      st2.selected_shapes = st.selected_shapes ∧
      st2.popups = st.popups := by
  obtain ⟨st3, hloop, hso, hheap, hhu, hitems, hiu, hsel, hpop, hmode, hns, hni⟩ :=
    copyLoop_spec st.selected_shapes st hfile hbound hlive
  refine ⟨{ st3 with mode := "" }, ?_, rfl, ?_, ?_, ?_, ?_, ?_, ?_, ?_⟩
  · simp only [on_release_copy, copy_shape, hloop]
  · simpa using hso
  · intro k s2 hks
    simpa using hheap k s2 hks
  · simpa using hns
  · intro n hn
    simpa using hhu n hn
  · intro i hi
    simpa using hiu i hi
  · simpa using hsel
  · simpa using hpop

/-- Witness for C7 amended at the mixed selection of mixedCopyState:
of the three selected shapes only the line and the sharp rectangle pass
copyablePred, so exactly two duplicates appear — the line
(10,10)-(50,50) at (60,60)-(100,100) keeping color black and the sharp
blue rectangle (0,0)-(40,40) at (50,50)-(90,90) keeping color and style
— while the rounded rectangle is skipped and left untouched, and the
mode is idle. -/
theorem c7_amended_copy_offsets_witness :
    mixedCopyState.selected_shapes.filter (copyablePred mixedCopyState) = [0, 2] ∧
    (on_release_copy mixedCopyState).toOption.map
        (fun s => (s.shape_object, s.mode, s.nextShape,
          ((s.shapeHeap 3).x1, (s.shapeHeap 3).y1, (s.shapeHeap 3).x2, (s.shapeHeap 3).y2,
           (s.shapeHeap 3).color),
          ((s.shapeHeap 4).x1, (s.shapeHeap 4).y1, (s.shapeHeap 4).x2, (s.shapeHeap 4).y2,
           (s.shapeHeap 4).color, (s.shapeHeap 4).style),
          ((s.shapeHeap 1).x1, (s.shapeHeap 1).x2, (s.shapeHeap 1).style)))
      = some ([0, 1, 2, 3, 4], "", 5, (60, 60, 100, 100, "black"),
          (50, 50, 90, 90, "blue", "s"), (0, 100, "r")) := by
  have hflt : mixedCopyState.selected_shapes.filter (copyablePred mixedCopyState)
      = [0, 2] := by
    simp [mixedCopyState, copyablePred, typeOf, updFun, initState, initShape]
  obtain ⟨st2, hrun, hmode, hso, hheap, hns, hhu, hiu, hsel, hpop⟩ :=
    c7_amended_copy_offsets mixedCopyState rfl (by decide) (by
      intro sid h
      fin_cases h
      · exact ⟨1, _, rfl, by decide, rfl, fun _ => rfl⟩
      · exact ⟨2, _, rfl, by decide, rfl, fun h => by
          rcases h with h | h <;> exact absurd h (by decide)⟩
      · exact ⟨3, _, rfl, by decide, rfl, fun _ => rfl⟩)
  have h3 : st2.shapeHeap 3 = copiedShape mixedCopyState 0 4 :=
    hheap 0 0 (by rw [hflt]; rfl)
  have h4 : st2.shapeHeap 4 = copiedShape mixedCopyState 2 5 :=
    hheap 1 2 (by rw [hflt]; rfl)
  have hu1 : st2.shapeHeap 1 = mixedCopyState.shapeHeap 1 := hhu 1 (by decide)
  have hns5 : st2.nextShape = 5 := by rw [hns, hflt]; rfl
  have hso5 : st2.shape_object = [0, 1, 2, 3, 4] := by
    rw [hso, hflt]
    decide
  refine ⟨hflt, ?_⟩
  rw [hrun]
  simp only [Except.toOption, Option.map_some', Option.some.injEq]
  rw [hso5, hmode, hns5, h3, h4, hu1]
  simp [copiedShape, mixedCopyState, coordsPy, typeOf, itemFill, itemOutline, itemTags,
    tagsHaveR, newCoords50, pyEnum, initState, initShape, updFun, List.getD]
  norm_num

/-- Helper: the full effect of one moveOne step on the observable
fields: popups and selection unchanged, the shape removed and
re-appended in shape_object, and exactly the one heap slot shifted. -/
theorem moveOne_fields (st : CanvasState) (s : ℕ) (dx dy : ℚ) :
    (moveOne st s dx dy).popups = st.popups ∧
    (moveOne st s dx dy).selected_shapes = st.selected_shapes ∧
    (moveOne st s dx dy).shape_object = st.shape_object.erase s ++ [s] ∧
    (moveOne st s dx dy).shapeHeap
      = updFun st.shapeHeap s (shiftShape (st.shapeHeap s) dx dy) := by
  refine ⟨?_, ?_, ?_, ?_⟩ <;>
  · cases hid : (st.shapeHeap s).shape_id with
    | none => simp [moveOne, moveItem, updShape, updFun, shiftShape, hid]
    | some i =>
      cases hit : st.items i with
      | none => simp [moveOne, moveItem, updShape, updFun, shiftShape, hid, hit]
      | some it => simp [moveOne, moveItem, updShape, updFun, shiftShape, hid, hit]

/-- Helper: the move loop leaves the popup log and the selection
untouched. -/
theorem moveLoop_fields (sel : List ℕ) : ∀ (st : CanvasState) (dx dy : ℚ),
    (moveLoop st dx dy sel).popups = st.popups ∧
    (moveLoop st dx dy sel).selected_shapes = st.selected_shapes := by
  induction sel with
  | nil => intro st dx dy; simp [moveLoop]
  | cons s rest ih =>
    intro st dx dy
    have hm := moveOne_fields st s dx dy
    have hih := ih (moveOne st s dx dy) dx dy
    rw [moveLoop]
    exact ⟨hih.1.trans hm.1, hih.2.trans hm.2.1⟩

/-- Helper: pointwise effect of the move loop on the shape heap for a
duplicate-free list: every processed shape is shifted once by (dx, dy),
every other shape keeps its entry. -/
theorem moveLoop_heap (sel : List ℕ) : ∀ (st : CanvasState) (dx dy : ℚ), sel.Nodup → ∀ sid,
    (moveLoop st dx dy sel).shapeHeap sid
      = if sid ∈ sel then shiftShape (st.shapeHeap sid) dx dy else st.shapeHeap sid := by
  induction sel with
  | nil => intro st dx dy _ sid; simp [moveLoop]
  | cons s rest ih =>
    intro st dx dy hnd sid
    have hns : s ∉ rest := (List.nodup_cons.mp hnd).1
    have hm := (moveOne_fields st s dx dy).2.2.2
    rw [moveLoop, ih _ _ _ (List.nodup_cons.mp hnd).2 sid, hm]
    by_cases hmem : sid ∈ rest
    · have hne : sid ≠ s := fun h => hns (h ▸ hmem)
      simp [hmem, hne, updFun, List.mem_cons]
    · by_cases heq : sid = s
      · subst heq
        simp [hmem, updFun]
      · simp [hmem, heq, updFun]

/-- Helper: the document order evolves by remove-and-append per moved
shape. -/
theorem moveLoop_shape_object (sel : List ℕ) : ∀ (st : CanvasState) (dx dy : ℚ),
    (moveLoop st dx dy sel).shape_object
      = sel.foldl (fun l s => l.erase s ++ [s]) st.shape_object := by
  induction sel with
  | nil => intro st dx dy; simp [moveLoop]
  | cons s rest ih =>
    intro st dx dy
    rw [moveLoop, ih, (moveOne_fields st s dx dy).2.2.1]
    rfl

/-- Helper: remove-and-append for elements of the list is a
permutation. -/
theorem moveFold_perm (sel : List ℕ) : ∀ (l : List ℕ), (∀ s ∈ sel, s ∈ l) →
    (sel.foldl (fun l2 s => l2.erase s ++ [s]) l).Perm l := by
  induction sel with
  | nil => intro l _; simp
  | cons s rest ih =>
    intro l hmem
    have hs : s ∈ l := hmem s (List.mem_cons_self s rest)
    have hperm : (l.erase s ++ [s]).Perm l :=
      (List.perm_append_singleton s (l.erase s)).trans (List.perm_cons_erase hs).symm
    have hmem2 : ∀ x ∈ rest, x ∈ l.erase s ++ [s] := by
      intro x hx
      exact hperm.mem_iff.mpr (hmem x (List.mem_cons_of_mem s hx))
    exact ((ih (l.erase s ++ [s]) hmem2).trans hperm)

/-- C10 counterexample: the drop-click displacement is not the one that
lands the center of the first selected shape on the click point.  On
roundedState the selected rounded rectangle spans (0,0)-(100,100), so
the center of its render coordinates is (50,50); dropping exactly on
(50,50) should then, per the claim, displace by (0,0) and leave the
geometry unchanged.  The code instead uses the midpoint of the first
two coordinate pairs of the polygon, (20,0), and shifts the shape by
(30,50): its stored fields become (30,50)-(130,150). -/
theorem c10_counterexample_polygon_midpoint :
    ((roundedState.shapeHeap 0).x1, (roundedState.shapeHeap 0).y1,
     (roundedState.shapeHeap 0).x2, (roundedState.shapeHeap 0).y2) = (0, 0, 100, 100) ∧
    (((roundedState.shapeHeap 0).x1 + (roundedState.shapeHeap 0).x2) / 2,
     ((roundedState.shapeHeap 0).y1 + (roundedState.shapeHeap 0).y2) / 2) = ((50 : ℚ), (50 : ℚ)) ∧
    (move_shape roundedState 50 50).toOption.map
        (fun st => ((st.shapeHeap 0).x1, (st.shapeHeap 0).y1,
                    (st.shapeHeap 0).x2, (st.shapeHeap 0).y2))
      = some (30, 50, 130, 150) := by
  refine ⟨?_, ?_, ?_⟩
  · simp [roundedState, initState, updFun]
  · norm_num [roundedState, initState, updFun]
  · simp [move_shape, moveLoop, moveOne, moveItem, shiftCoords, pyEnum, coordsPy, idx4,
      listIdx, updShape, updFun, roundedState, roundedRectPoints, initState, initShape,
      Except.toOption]
    norm_num

/-- C10 amended: for a non-empty, duplicate-free selection of document
shapes, the drop click of the two-click move translates every selected
shape by one common displacement vector (dx, dy) = click minus the
midpoint of the first two coordinate pairs of the first selected
shape's render item — which is that shape's center when the item is a
line or a sharp rectangle, but not when it is the polygon of a rounded
rectangle.  Every selected shape's stored x1, y1, x2, y2 shift by that
same vector, unselected shapes are untouched, pairwise relative
positions among the selected shapes are preserved, the document is a
permutation of the old one in which each moved shape occurs exactly
once, and the selection and popup log are unchanged. -/
theorem c10_amended_move_common_vector (st : CanvasState) (ex ey : ℚ) (first : ℕ)
    (rsel : List ℕ) (a b c d : ℚ) (tail4 : List ℚ)
    (hsel : st.selected_shapes = first :: rsel)
    (hnd : st.selected_shapes.Nodup)
    (hso : st.shape_object.Nodup)
    (hsub : ∀ sid ∈ st.selected_shapes, sid ∈ st.shape_object)
    (hcoords : coordsPy st (st.shapeHeap first).shape_id = a :: b :: c :: d :: tail4) :
    ∃ st2, move_shape st ex ey = .ok st2 ∧
      (∀ sid ∈ st.selected_shapes,
        st2.shapeHeap sid
          = shiftShape (st.shapeHeap sid) (ex - (c + a) / 2) (ey - (d + b) / 2)) ∧
      (∀ sid, sid ∉ st.selected_shapes → st2.shapeHeap sid = st.shapeHeap sid) ∧
      (∀ sid ∈ st.selected_shapes, st2.shape_object.count sid = 1) ∧
      st2.shape_object.Perm st.shape_object ∧
      (∀ sid1 ∈ st.selected_shapes, ∀ sid2 ∈ st.selected_shapes,
        (st2.shapeHeap sid1).x1 - (st2.shapeHeap sid2).x1
          = (st.shapeHeap sid1).x1 - (st.shapeHeap sid2).x1 ∧
        (st2.shapeHeap sid1).y1 - (st2.shapeHeap sid2).y1
          = (st.shapeHeap sid1).y1 - (st.shapeHeap sid2).y1) ∧
      st2.selected_shapes = st.selected_shapes ∧
      st2.popups = st.popups := by
  have hmoving : ∀ x : CanvasState, ({ x with moving := true } : CanvasState).shapeHeap
      = x.shapeHeap := fun _ => rfl
  set dx := ex - (c + a) / 2 with hdx
  set dy := ey - (d + b) / 2 with hdy
  have hcoords2 : coordsPy { st with selected_shapes := first :: rsel, moving := true }
      (st.shapeHeap first).shape_id = a :: b :: c :: d :: tail4 := hcoords
  have hrun : move_shape st ex ey
      = .ok (moveLoop { st with moving := true } dx dy (first :: rsel)) := by
    rw [moveLoop]
    simp only [move_shape, hsel, hcoords2, idx4, listIdx, List.get?]
  set stm : CanvasState := { st with moving := true } with hstm
  have hheap := moveLoop_heap (first :: rsel) stm dx dy (hsel ▸ hnd)
  have hfields := moveLoop_fields (first :: rsel) stm dx dy
  have hsobj := moveLoop_shape_object (first :: rsel) stm dx dy
  have hsub2 : ∀ s2 ∈ first :: rsel, s2 ∈ st.shape_object := by
    intro s2 h2
    exact hsub s2 (by rw [hsel]; exact h2)
  have hperm : (moveLoop stm dx dy (first :: rsel)).shape_object.Perm st.shape_object := by
    rw [hsobj]
    exact moveFold_perm (first :: rsel) st.shape_object hsub2
  refine ⟨moveLoop stm dx dy (first :: rsel), hrun, ?_, ?_, ?_, hperm, ?_, ?_, ?_⟩
  · intro sid hmem
    rw [hheap sid, if_pos (by rw [← hsel]; exact hmem)]
  · intro sid hmem
    rw [hheap sid, if_neg (by rw [← hsel]; exact hmem)]
  · intro sid hmem
    rw [List.Perm.count_eq hperm]
    exact List.count_eq_one_of_mem hso (hsub sid hmem)
  · intro sid1 h1 sid2 h2
    rw [hheap sid1, if_pos (by rw [← hsel]; exact h1),
        hheap sid2, if_pos (by rw [← hsel]; exact h2)]
    constructor <;> simp [shiftShape]
  · rw [hfields.2]
  · rw [hfields.1]

/-- Witness for C10 amended at movePairState: dropping at (100,100)
with the line (10,10)-(30,30) first in the selection moves both shapes
by (80,80) — the line to (90,90)-(110,110), the rectangle to
(80,80)-(120,120) — and each occurs exactly once in the document. -/
theorem c10_amended_move_common_vector_witness :
    (move_shape movePairState 100 100).toOption.map
        (fun s => (((s.shapeHeap 0).x1, (s.shapeHeap 0).y1, (s.shapeHeap 0).x2, (s.shapeHeap 0).y2),
          ((s.shapeHeap 1).x1, (s.shapeHeap 1).y1, (s.shapeHeap 1).x2, (s.shapeHeap 1).y2),
          s.shape_object.count 0, s.shape_object.count 1))
      = some ((90, 90, 110, 110), (80, 80, 120, 120), 1, 1) := by
  obtain ⟨st2, hrun, hshift, huns, hcount, hperm, hrel, hselu, hpopu⟩ :=
    c10_amended_move_common_vector movePairState 100 100 0 [1] 10 10 30 30 []
      rfl (by decide) (by decide) (by decide) rfl
  rw [hrun]
  have h0 := hshift 0 (by decide)
  have h1 := hshift 1 (by decide)
  have hc0 := hcount 0 (by decide)
  have hc1 := hcount 1 (by decide)
  simp only [Except.toOption, Option.map_some', Option.some.injEq]
  rw [h0, h1, hc0, hc1]
  simp [shiftShape, movePairState, initState, updFun]
  norm_num

end DrawingEditor
